import Mathlib

/-!
Verification of the Snapchat memories downloader (`main.py`) against its
natural-language specification.

The development shallowly embeds the pieces of the program the claims talk
about: Python string and `pathlib` path manipulation, the on-disk file system
as a partial map from paths to file data, the timestamp / coordinate / URL
parsers, the fetcher (`download_file`) with its retry loop, the zip
classifier (`is_zip` / `save_zip`), the EXIF GPS encoding
(`_deg_to_dms_rational`, `tag_jpeg_tiff_exif`), and the per-row orchestrator
loop from the `__main__` block.

Modelling conventions:
* Python floats are idealised as rationals (`ℚ`); `round` is Python 3
  banker's rounding (half to even).
* The network and the external taggers (ffmpeg, piexif, Pillow) are oracles:
  per-attempt fetch outcomes and per-item tagger outcomes are inputs of the
  model.  A tagger oracle either returns the new file bytes or an error
  message (the exception the library raised).
* File-system operations (`rename`, `unlink`, `write_text`, `open(..,"a")`)
  are total, matching the happy path of the OS; a file that exists but whose
  `open` raises `OSError` is represented by the `FileData.unreadable`
  constructor.
* `mimetypes.guess_extension` and `html.unescape` are standard-library
  tables; they are passed in as abstract functions.
-/

namespace Snap

/-! ### Python-like string helpers -/

/-- Python `str.strip()` (whitespace on both ends). -/
def pyStrip (s : String) : String :=
  (((s.toList.dropWhile Char.isWhitespace).reverse.dropWhile Char.isWhitespace).reverse).asString

/-- Python `str.lower()` (ASCII case folding suffices for this program). -/
def pyLower (s : String) : String :=
  (s.toList.map Char.toLower).asString

/-- Python `s.split(";")[0]`. -/
def splitSemiHead (s : String) : String :=
  (s.toList.takeWhile (fun c => c ≠ ';')).asString

/-- The final path component, as in `PurePath.name` restricted to what the
program needs: everything after the last slash. -/
def nameOf (p : String) : String :=
  ((p.toList.reverse.takeWhile (fun c => c ≠ '/')).reverse).asString

/-- Split a file name at its last dot: `some (stem, ext)` where the dot
itself belongs to neither part; `none` when the name has no dot. -/
def lastDotSplit (name : List Char) : Option (List Char × List Char) :=
  let rev := name.reverse
  let ext := rev.takeWhile (fun c => c ≠ '.')
  match rev.dropWhile (fun c => c ≠ '.') with
  | [] => none
  | _ :: revStem => some (revStem.reverse, ext.reverse)

/-- Python `PurePath.suffix`: the last-dot suffix of the final component,
empty when the dot is the first or the last character of the name. -/
def nameSuffix (p : String) : String :=
  match lastDotSplit (nameOf p).toList with
  | none => ""
  | some (stem, ext) =>
      if stem ≠ [] ∧ ext ≠ [] then (String.mk ('.' :: ext)) else ""

/-- Python `PurePath.with_suffix`: strip the old suffix (if any) and append
the new one. -/
def withSuffix (p : String) (suffix : String) : String :=
  let old := nameSuffix p
  if old = "" then p ++ suffix
  else (p.toList.take (p.toList.length - old.toList.length)).asString ++ suffix

/-- Model of `urllib.parse.urlparse(url).path` for the http(s) URLs this program
sees: drop the fragment, the scheme, the authority and the query. -/
def urlPath (url : String) : String :=
  let l := url.toList
  let noFrag := l.takeWhile (fun c => c ≠ '#')
  let pre := noFrag.takeWhile (fun c => c ≠ ':')
  let afterScheme :=
    if pre.length < noFrag.length ∧ pre ≠ [] ∧
        pre.all (fun c => c.isAlphanum ∨ c = '+' ∨ c = '-' ∨ c = '.') ∧
        (pre.headD ' ').isAlpha then
      noFrag.drop (pre.length + 1)
    else noFrag
  let afterNet :=
    match afterScheme with
    | '/' :: '/' :: rest => rest.dropWhile (fun c => c ≠ '/' ∧ c ≠ '?')
    | other => other
  (afterNet.takeWhile (fun c => c ≠ '?')).asString

/-! ### Fixed-format timestamp parsing (`datetime.strptime` + `isoformat`) -/

/-- One calendar timestamp as parsed by
`datetime.strptime(s, "%Y-%m-%d %H:%M:%S UTC")`. -/
structure DateTimeParts where
  year : Nat
  month : Nat
  day : Nat
  hour : Nat
  minute : Nat
  second : Nat
deriving DecidableEq, Repr

/-- Parse exactly `k` digits (the `%Y` field of `strptime`). -/
def parseN (k : Nat) (l : List Char) : Option (Nat × List Char) :=
  let ds := l.take k
  if ds.length = k ∧ ds.all Char.isDigit then
    some (ds.foldl (fun a c => a * 10 + (c.toNat - 48)) 0, l.drop k)
  else none

/-- Consume one expected character. -/
def expectChar (c : Char) : List Char → Option (List Char)
  | x :: rest => if x = c then some rest else none
  | [] => none

/-- Parse a one- or two-digit numeric field in `[lo, hi]`, the way the
`strptime` regular expressions for `%m`, `%d`, `%H`, `%M`, `%S` do: prefer
two digits when they form an in-range value, otherwise fall back to one. -/
def parseField (lo hi : Nat) : List Char → Option (Nat × List Char)
  | c1 :: c2 :: rest =>
    if c1.isDigit ∧ c2.isDigit then
      let v := (c1.toNat - 48) * 10 + (c2.toNat - 48)
      if lo ≤ v ∧ v ≤ hi then some (v, rest)
      else
        let v1 := c1.toNat - 48
        if lo ≤ v1 ∧ v1 ≤ hi then some (v1, c2 :: rest) else none
    else if c1.isDigit then
      let v1 := c1.toNat - 48
      if lo ≤ v1 ∧ v1 ≤ hi then some (v1, c2 :: rest) else none
    else none
  | [c1] =>
    if c1.isDigit then
      let v1 := c1.toNat - 48
      if lo ≤ v1 ∧ v1 ≤ hi then some (v1, []) else none
    else none
  | [] => none

/-- Consume one or more whitespace characters (a literal blank in a
`strptime` format string matches a nonempty whitespace run). -/
def skipWs1 : List Char → Option (List Char)
  | c :: rest =>
    if c.isWhitespace then some (rest.dropWhile Char.isWhitespace) else none
  | [] => none

/-- Number of days of a month, with the Gregorian leap rule, as enforced by
the `datetime` constructor. -/
def daysInMonth (y m : Nat) : Nat :=
  if m = 2 then
    (if (y % 4 = 0 ∧ y % 100 ≠ 0) ∨ y % 400 = 0 then 29 else 28)
  else if m = 4 ∨ m = 6 ∨ m = 9 ∨ m = 11 then 30 else 31

/-- Model of `datetime.strptime(date_str.strip(), "%Y-%m-%d %H:%M:%S UTC")`: `none`
models the `ValueError` the call raises on a non-matching string. -/
def parse_dt (date_str : String) : Option DateTimeParts := do
  let l := (pyStrip date_str).toList
  let (y, l) ← parseN 4 l
  let l ← expectChar '-' l
  let (mo, l) ← parseField 1 12 l
  let l ← expectChar '-' l
  let (d, l) ← parseField 1 31 l
  let l ← skipWs1 l
  let (h, l) ← parseField 0 23 l
  let l ← expectChar ':' l
  let (mi, l) ← parseField 0 59 l
  let l ← expectChar ':' l
  let (s, l) ← parseField 0 59 l
  let l ← skipWs1 l
  let l ← expectChar 'U' l
  let l ← expectChar 'T' l
  let l ← expectChar 'C' l
  if l = [] ∧ 1 ≤ y ∧ d ≤ daysInMonth y mo then
    some ⟨y, mo, d, h, mi, s⟩
  else none

/-- Zero-pad to two digits, as `datetime.isoformat` and `strftime` do. -/
def pad2 (n : Nat) : String :=
  if n < 10 then "0" ++ toString n else toString n

/-- Zero-pad the year to four digits. -/
def pad4 (n : Nat) : String :=
  if n < 10 then "000" ++ toString n
  else if n < 100 then "00" ++ toString n
  else if n < 1000 then "0" ++ toString n
  else toString n

/-- Model of `dt.isoformat().replace("+00:00", "Z")`, e.g. `2025-11-12T21:05:03Z`. -/
def isoString (d : DateTimeParts) : String :=
  pad4 d.year ++ "-" ++ pad2 d.month ++ "-" ++ pad2 d.day ++ "T" ++
    pad2 d.hour ++ ":" ++ pad2 d.minute ++ ":" ++ pad2 d.second ++ "Z"

/-- Model of `dt.strftime("%Y:%m:%d %H:%M:%S")`, the EXIF date format. -/
def exifString (d : DateTimeParts) : String :=
  pad4 d.year ++ ":" ++ pad2 d.month ++ ":" ++ pad2 d.day ++ " " ++
    pad2 d.hour ++ ":" ++ pad2 d.minute ++ ":" ++ pad2 d.second

/-- Model of `parse_iso8601_utc` from the source: parse the fixed UTC format and
render it as ISO-8601 with a `Z` suffix; `none` is the raised `ValueError`. -/
def parse_iso8601_utc (s : String) : Option String :=
  (parse_dt s).map isoString

/-! ### Coordinate extraction (`parse_lat_lon`) -/

/-- Value of a digit run. -/
def digitsVal (l : List Char) : Nat :=
  l.foldl (fun a c => a * 10 + (c.toNat - 48)) 0

/-- Parse `[+-]?\d+(?:\.\d+)?` greedily, returning the number (idealised as
an exact rational; Python converts the matched text with `float`). -/
def parseNumber (l : List Char) : Option (ℚ × List Char) :=
  let (sgn, l1) : ℚ × List Char :=
    match l with
    | '+' :: r => (1, r)
    | '-' :: r => (-1, r)
    | _ => (1, l)
  let intDigits := l1.takeWhile Char.isDigit
  if intDigits = [] then none
  else
    let l2 := l1.drop intDigits.length
    let ipart : ℚ := (digitsVal intDigits : ℚ)
    match l2 with
    | '.' :: l3 =>
      let fd := l3.takeWhile Char.isDigit
      if fd = [] then some (sgn * ipart, l2)
      else some (sgn * (ipart + (digitsVal fd : ℚ) / ((10 : ℚ) ^ fd.length)),
                 l3.drop fd.length)
    | _ => some (sgn * ipart, l2)

/-- Match a literal character list. -/
def expectList : List Char → List Char → Option (List Char)
  | [], l => some l
  | p :: ps, c :: cs => if c = p then expectList ps cs else none
  | _ :: _, [] => none

/-- Attempt the regex `Latitude,\s*Longitude:\s*(num),\s*(num)` at the head
of the list. -/
def latLonAt (l : List Char) : Option (ℚ × ℚ) := do
  let l ← expectList "Latitude,".toList l
  let l := l.dropWhile Char.isWhitespace
  let l ← expectList "Longitude:".toList l
  let l := l.dropWhile Char.isWhitespace
  let (lat, l) ← parseNumber l
  let l ← expectChar ',' l
  let l := l.dropWhile Char.isWhitespace
  let (lon, _) ← parseNumber l
  some (lat, lon)

/-- Model of `re.search`: try the pattern at every start position, earliest first. -/
def latLonScan : List Char → Option (ℚ × ℚ)
  | [] => none
  | c :: rest =>
    match latLonAt (c :: rest) with
    | some r => some r
    | none => latLonScan rest

/-- Model of `parse_lat_lon` from the source; `none` models the `(None, None)`
return. -/
def parse_lat_lon (s : String) : Option (ℚ × ℚ) :=
  latLonScan s.toList

/-! ### `safe_filename` -/

/-- Characters kept by the `[^\w\-\.]+` substitution (ASCII word
characters, dash, dot; the program feeds it ASCII input). -/
def keepChar (c : Char) : Bool :=
  c.isAlphanum || c = '_' || c = '-' || c = '.'

/-- Model of `re.sub(r"[^\w\-\.]+", "_", ·)`: replace each maximal run of dropped
characters by a single underscore.  The flag records whether the previous
character was part of such a run. -/
def subRuns : Bool → List Char → List Char
  | _, [] => []
  | prevSub, c :: rest =>
    if keepChar c then c :: subRuns false rest
    else if prevSub then subRuns true rest
    else '_' :: subRuns true rest

/-- Python `s.strip("_")`. -/
def stripUnderscores (l : List Char) : List Char :=
  ((l.dropWhile (fun c => c = '_')).reverse.dropWhile (fun c => c = '_')).reverse

/-- Model of `safe_filename` from the source. -/
def safe_filename (s : String) : String :=
  let l := stripUnderscores (subRuns false (pyStrip s).toList)
  let l := if l = [] then "file".toList else l
  (l.take 180).asString

/-! ### `extract_download_url` -/

/-- The single-quote character, kept out of the source text. -/
def quoteChar : Char := Char.ofNat 39

/-- Case-insensitive literal match (the regex is compiled with `re.I`). -/
def ciMatch : List Char → List Char → Option (List Char)
  | [], l => some l
  | p :: ps, c :: cs => if c.toLower = p.toLower then ciMatch ps cs else none
  | _ :: _, [] => none

/-- Attempt `downloadMemories\(\s*'([^']+)'` at the head of the list,
returning the captured group. -/
def onclickAt (l : List Char) : Option (List Char) := do
  let l ← ciMatch "downloadMemories(".toList l
  let l := l.dropWhile Char.isWhitespace
  let l ← expectChar quoteChar l
  let arg := l.takeWhile (fun c => c ≠ quoteChar)
  if arg = [] then none
  else do
    let _ ← expectChar quoteChar (l.drop arg.length)
    some arg

/-- Model of `ONCLICK_RE.search`. -/
def onclickScan : List Char → Option (List Char)
  | [] => none
  | c :: rest =>
    match onclickAt (c :: rest) with
    | some r => some r
    | none => onclickScan rest

/-- One catalog row as handed to the loop body: the stripped cell texts and
the `onclick` attribute of the `a[onclick*="downloadMemories"]` anchor
(`none` when the selector finds no anchor or the attribute is missing). -/
structure Row where
  tds : List String
  onclick : Option String

/-- Model of `extract_download_url` from the source; `unescape` abstracts
`html.unescape`. -/
def extract_download_url (unescape : String → String) (row : Row) : Option String :=
  match row.onclick with
  | none => none
  | some oc =>
      if oc = "" then none
      else (onclickScan oc.toList).map (fun m => unescape m.asString)

/-! ### The file-system model -/

/-- The JSON sidecar document written beside an artifact.  `tag_error =
none` means the `tag_error` key is absent from the document (the
non-failure sidecars); the remaining six keys are always present. -/
structure SidecarJson where
  kind : String
  date : String
  location : String
  lat : Option ℚ
  lon : Option ℚ
  content_type : Option String
  tag_error : Option String
deriving DecidableEq

/-- Content of one file.  `bytes` is a downloaded payload, `sidecar` a JSON
sidecar (its serialisation always starts with a brace, never with the zip
signature), `textLines` the append-only ledger, and `unreadable` a file
whose `open` raises `OSError`. -/
inductive FileData where
  | bytes (bs : List Nat)
  | sidecar (s : SidecarJson)
  | textLines (ls : List String)
  | unreadable
deriving DecidableEq

/-- The output directory: a partial map from paths to file contents. -/
def FS := String → Option FileData

/-- Write (create or overwrite) a file. -/
def fsWrite (fs : FS) (p : String) (d : FileData) : FS :=
  fun q => if q = p then some d else fs q

/-- Model of `Path.unlink`. -/
def fsErase (fs : FS) (p : String) : FS :=
  fun q => if q = p then none else fs q

/-- Model of `Path.replace`: atomically rename `src` over `dst`. -/
def fsRename (fs : FS) (src dst : String) : FS :=
  fun q => if q = dst then fs src else if q = src then none else fs q

/-- Model of `add_line_to_file` from the source: append one line, creating the file
if absent (the ledger only ever holds text lines). -/
def add_line_to_file (fs : FS) (p : String) (text : String) : FS :=
  match fs p with
  | some (FileData.textLines ls) => fsWrite fs p (FileData.textLines (ls ++ [text]))
  | _ => fsWrite fs p (FileData.textLines [text])

/-! ### `guess_ext` and `download_file` -/

/-- Model of `content_type.split(";")[0].strip().lower()`, the media-type
normalisation both `guess_ext` and `is_zip` perform. -/
def normCT (c : String) : String :=
  pyLower (pyStrip (splitSemiHead c))

/-- Model of `guess_ext` from the source.  `mime` abstracts
`mimetypes.guess_extension` (`mime ct = none` models a `None` return, and
`Option.getD "" ` is the `or ""`). -/
def guess_ext (mime : String → Option String) (url : String)
    (content_type : Option String) : String :=
  match content_type with
  | some c =>
    if c ≠ "" then
      let ct := normCT c
      let ext := (mime ct).getD ""
      if ct = "video/mp4" then ".mp4"
      else if ct = "image/jpeg" then ".jpg"
      else if ext ≠ "" then ext
      else nameSuffix (urlPath url)
    else nameSuffix (urlPath url)
  | none => nameSuffix (urlPath url)

/-- Outcome of one `requests.get` attempt, as seen by `download_file`.  An
`sslError` may have streamed a partial body into the temporary file before
failing. -/
inductive FetchOutcome where
  | ok (contentType : Option String) (body : List Nat)
  | httpError
  | sslError (partialBody : Option (List Nat))
  | otherError

/-- The exception classes `download_file` can let escape. -/
inductive DLErr where
  | http
  | ssl
  | transport
deriving DecidableEq

/-- Observable events of the retry loop: an attempt being made, or a
`time.sleep`. -/
inductive Ev where
  | attempt (n : Nat)
  | sleep (secs : Nat)
deriving DecidableEq

/-- The `for attempt in range(1, max_retries + 1)` loop of `download_file`.
`attempt` is the 1-based attempt number, `rem` the attempts still allowed
(initially `max_retries = 3`); only `SSLError` is retried, with a
`time.sleep(60)` between attempts, and the last attempt re-raises it. -/
def runAttempts (attempts : Nat → FetchOutcome) (tmp : String) :
    Nat → Nat → FS → List Ev → Except DLErr (Option String) × FS × List Ev
  | _, 0, fs, tr => (Except.error DLErr.ssl, fs, tr)
  | attempt, rem + 1, fs, tr =>
    let tr := tr ++ [Ev.attempt attempt]
    match attempts attempt with
    | FetchOutcome.ok ct body => (Except.ok ct, fsWrite fs tmp (FileData.bytes body), tr)
    | FetchOutcome.httpError => (Except.error DLErr.http, fs, tr)
    | FetchOutcome.otherError => (Except.error DLErr.transport, fs, tr)
    | FetchOutcome.sslError part =>
      let fs2 := match part with
        | some b => fsWrite fs tmp (FileData.bytes b)
        | none => fs
      if rem = 0 then (Except.error DLErr.ssl, fs2, tr)
      else runAttempts attempts tmp (attempt + 1) rem fs2 (tr ++ [Ev.sleep 60])

/-- Model of `download_file` from the source: stream to `out_stem + ".download"`,
resolve the extension, and rename the temporary file onto the final path
only after a fully successful transfer.  The returned triple is (result or
escaped exception, file system afterwards, event trace). -/
def download_file (mime : String → Option String) (attempts : Nat → FetchOutcome)
    (url : String) (out_stem : String) (kind_norm : String) (fs : FS) :
    Except DLErr (String × Option String) × FS × List Ev :=
  let tmp := withSuffix out_stem ".download"
  match runAttempts attempts tmp 1 3 fs [] with
  | (Except.error e, fs1, tr) => (Except.error e, fs1, tr)
  | (Except.ok ct, fs1, tr) =>
    let ext := guess_ext mime url ct
    let final :=
      if ext = "" ∧ kind_norm = "image" then withSuffix out_stem ".jpg"
      else withSuffix out_stem ext
    (Except.ok (final, ct), fsRename fs1 tmp final, tr)

/-! ### Zip classification and handling -/

/-- The two zip MIME strings recognised by `is_zip`. -/
def zipMimes : List String := ["application/zip", "application/x-zip-compressed"]

/-- The zip local-file-header signature `PK\x03\x04`. -/
def zipSig : List Nat := [80, 75, 3, 4]

/-- The header-based half of `is_zip`: a truthy content-type whose
media-type part is one of the zip MIME strings. -/
def zipHeaderCT (content_type : Option String) : Bool :=
  match content_type with
  | some c => c ≠ "" && zipMimes.contains (normCT c)
  | none => false

/-- Model of `is_zip` from the source: trust a zip content-type, otherwise read the
first four bytes; a read that raises `OSError` (absent or unreadable file)
yields `false`.  Structured file contents (sidecars, the ledger) serialise
with a head that is never the zip signature. -/
def is_zip (fs : FS) (file_path : String) (content_type : Option String) : Bool :=
  if zipHeaderCT content_type then true
  else
    match fs file_path with
    | some (FileData.bytes bs) => bs.take 4 == zipSig
    | _ => false

/-- The path `save_zip` leaves the payload at. -/
def zipTarget (file_path suffix : String) : String :=
  if suffix = ".zip" then file_path else withSuffix file_path ".zip"

/-- Model of `save_zip` from the source: rename to a `.zip` extension unless the
(lower-cased) suffix already is `.zip`; the payload is never rewritten. -/
def save_zip (fs : FS) (file_path suffix : String) : FS :=
  let zip_path := zipTarget file_path suffix
  if zip_path ≠ file_path then fsRename fs file_path zip_path else fs

/-! ### EXIF GPS encoding -/

/-- Python 3 `round` to an integer: banker's rounding, half to even. -/
def pyRound (q : ℚ) : ℤ :=
  let f := Int.floor q
  let frac := q - f
  if frac < 1 / 2 then f
  else if 1 / 2 < frac then f + 1
  else if f % 2 = 0 then f else f + 1

/-- Model of `_deg_to_dms_rational` from the source: degrees, minutes and seconds as
EXIF rationals, the seconds rounded to two decimals via a `/100`
rational.  Floats are idealised as rationals; `int` on the nonnegative
intermediate values is the floor. -/
def _deg_to_dms_rational (deg : ℚ) : (ℤ × ℤ) × (ℤ × ℤ) × (ℤ × ℤ) :=
  let degAbs := |deg|
  let d : ℤ := Int.floor degAbs
  let mFloat := (degAbs - d) * 60
  let m : ℤ := Int.floor mFloat
  let s := (mFloat - m) * 60
  ((d, 1), (m, 1), (pyRound (s * 100), 100))

/-- Decode a degrees/minutes/seconds rational triple back to decimal
degrees. -/
def dmsToDeg (t : (ℤ × ℤ) × (ℤ × ℤ) × (ℤ × ℤ)) : ℚ :=
  (t.1.1 : ℚ) / (t.1.2 : ℚ) + (t.2.1.1 : ℚ) / (t.2.1.2 : ℚ) / 60 +
    (t.2.2.1 : ℚ) / (t.2.2.2 : ℚ) / 3600

/-- The GPS IFD written by `tag_jpeg_tiff_exif` when both coordinates are
present. -/
structure GpsIfd where
  latRef : String
  lonRef : String
  lat : (ℤ × ℤ) × (ℤ × ℤ) × (ℤ × ℤ)
  lon : (ℤ × ℤ) × (ℤ × ℤ) × (ℤ × ℤ)
deriving DecidableEq

/-- The EXIF dictionary `tag_jpeg_tiff_exif` assembles before handing it to
`piexif.dump`. -/
structure ExifDict where
  dateTime : String
  dateTimeOriginal : String
  dateTimeDigitized : String
  imageDescription : String
  gps : Option GpsIfd
deriving DecidableEq

/-- The pure data part of `tag_jpeg_tiff_exif`: the dictionary it builds
(the `piexif.insert` byte surgery is an external effect). -/
def tag_jpeg_tiff_exif (date_str_for_exif : String) (lat lon : Option ℚ)
    (location_text : String) : ExifDict :=
  { dateTime := date_str_for_exif
    dateTimeOriginal := date_str_for_exif
    dateTimeDigitized := date_str_for_exif
    imageDescription := "Location: " ++ location_text
    gps :=
      match lat, lon with
      | some la, some lo =>
        some { latRef := if 0 ≤ la then "N" else "S"
               lonRef := if 0 ≤ lo then "E" else "W"
               lat := _deg_to_dms_rational la
               lon := _deg_to_dms_rational lo }
      | _, _ => none }

/-! ### The orchestrator loop (`__main__`) -/

/-- Model of `s.replace(":", "")` for the one use the program makes of it. -/
def removeColons (s : String) : String :=
  (s.toList.filter (fun c => c ≠ ':')).asString

/-- Per-item oracles for the external world: the network outcome of each
fetch attempt, whether `shutil.which("ffmpeg")` finds the tool, and the
result of each tagging library (either the new file bytes it produces or
the message of the exception it raises). -/
structure ItemCtx where
  attempts : Nat → FetchOutcome
  ffmpegAvailable : Bool
  videoResult : Except String (List Nat)
  exifResult : Except String (List Nat)
  pngResult : Except String (List Nat)

/-- Terminal state of the tagging phase of one item. -/
inductive Terminal where
  | zipped
  | videoTagged
  | exifTagged
  | pngTagged
  | sidecarNoTagger
  | sidecarError
deriving DecidableEq

/-- Exception classes that escape the loop body and abort the run (nothing
in the loop catches them). -/
inductive CrashKind where
  | valueError
  | sslExhausted
  | transport
deriving DecidableEq

/-- Result of one iteration of the row loop. -/
inductive StepOutcome where
  | skipped
  | fetchLogged
  | done (t : Terminal)
  | crashed (k : CrashKind)
deriving DecidableEq

/-- Ambient collaborators: the `mimetypes` table and `html.unescape`. -/
structure Env where
  mime : String → Option String
  unescape : String → String

/-- Model of `f"{out_dir}/not_saved.txt"`. -/
def ledgerPath (out_dir : String) : String := out_dir ++ "/not_saved.txt"

/-- Model of `file_path.with_suffix(file_path.suffix + ".json")`: the sidecar sits
beside the artifact, its name is the artifact name plus `.json`. -/
def sidecarPath (p : String) : String :=
  withSuffix p (nameSuffix p ++ ".json")

/-- Write the sidecar document beside the artifact. -/
def writeSidecar (fs : FS) (p : String) (sc : SidecarJson) : FS :=
  fsWrite fs (sidecarPath p) (FileData.sidecar sc)

/-- Model of `suffix.replace(".", ".tagged.", 1)`. -/
def replaceFirstDot : List Char → List Char
  | [] => []
  | c :: rest =>
    if c = '.' then ".tagged.".toList ++ rest else c :: replaceFirstDot rest

/-- The image suffixes routed to the EXIF tagger. -/
def jpegSuffixes : List String := [".jpg", ".jpeg", ".tif", ".tiff"]

/-- The `try:` block of the loop body ("Save file with metadata"): zip
handling first, then the kind-based taggers, with the `except Exception`
fallback writing a sidecar that carries the error message.  A tagger oracle
error models the exception that branch raises; on a video-tagging error the
partially written ffmpeg output is not modelled (it never touches the
artifact path).  Returns the file system and the terminal state. -/
def tagPhase (ctx : ItemCtx) (kind kind_norm date_iso location_str : String)
    (lat lon : Option ℚ) (content_type : Option String)
    (file_path suffix : String) (fs : FS) : FS × Terminal :=
  let scBase : SidecarJson :=
    { kind := kind, date := date_iso, location := location_str,
      lat := lat, lon := lon, content_type := content_type, tag_error := none }
  if is_zip fs file_path content_type then
    (save_zip fs file_path suffix, Terminal.zipped)
  else if kind_norm = "video" && ctx.ffmpegAvailable then
    match ctx.videoResult with
    | Except.ok outBytes =>
      -- ffmpeg writes the tagged temp file, then the original is unlinked
      -- and the temp renamed over it
      let tagged := withSuffix file_path (replaceFirstDot (nameSuffix file_path).toList).asString
      let fs1 := fsWrite fs tagged (FileData.bytes outBytes)
      let fs2 := fsErase fs1 file_path
      (fsRename fs2 tagged file_path, Terminal.videoTagged)
    | Except.error e =>
      (writeSidecar fs file_path { scBase with tag_error := some e }, Terminal.sidecarError)
  else if kind_norm = "image" then
    if jpegSuffixes.contains suffix then
      match ctx.exifResult with
      | Except.ok newBytes => (fsWrite fs file_path (FileData.bytes newBytes), Terminal.exifTagged)
      | Except.error e =>
        (writeSidecar fs file_path { scBase with tag_error := some e }, Terminal.sidecarError)
    else if suffix = ".png" then
      match ctx.pngResult with
      | Except.ok newBytes =>
        -- the PNG tagger saves to a `.tagged.png` temp, then renames it
        -- over the original
        let tmp := withSuffix file_path ".tagged.png"
        let fs1 := fsWrite fs tmp (FileData.bytes newBytes)
        (fsRename fs1 tmp file_path, Terminal.pngTagged)
      | Except.error e =>
        (writeSidecar fs file_path { scBase with tag_error := some e }, Terminal.sidecarError)
    else (writeSidecar fs file_path scBase, Terminal.sidecarNoTagger)
  else (writeSidecar fs file_path scBase, Terminal.sidecarNoTagger)

/-- One iteration of the `for i, row in enumerate(rows)` loop.  A
`ValueError` from `strptime` and a transport failure other than `HTTPError`
are caught nowhere and abort the run (`crashed`); `requests.get(None)` —
the missing-URL case — raises `MissingSchema`, a transport error. -/
def processRow (env : Env) (ctx : ItemCtx) (starting_index : Nat)
    (out_dir : String) (i : Nat) (row : Row) (fs : FS) : FS × StepOutcome :=
  if row.tds.length < 4 then (fs, StepOutcome.skipped)
  else if i < starting_index then (fs, StepOutcome.skipped)
  else
    let date_str := row.tds.getD 0 ""
    let kind := row.tds.getD 1 ""
    let location_str := row.tds.getD 2 ""
    let kind_norm := pyLower (pyStrip kind)
    match parse_dt date_str with
    | none => (fs, StepOutcome.crashed CrashKind.valueError)
    | some dt =>
      let date_iso := isoString dt
      let latlon := parse_lat_lon location_str
      let lat := latlon.map Prod.fst
      let lon := latlon.map Prod.snd
      let base := safe_filename (removeColons (toString i ++ "_" ++ date_iso))
      let out_stem := out_dir ++ "/" ++ base
      match extract_download_url env.unescape row with
      | none => (fs, StepOutcome.crashed CrashKind.transport)
      | some url =>
        match download_file env.mime ctx.attempts url out_stem kind_norm fs with
        | (Except.error DLErr.http, fs1, _) =>
          (add_line_to_file fs1 (ledgerPath out_dir)
            (toString i ++ "_" ++ kind ++ " " ++ date_str), StepOutcome.fetchLogged)
        | (Except.error DLErr.ssl, fs1, _) => (fs1, StepOutcome.crashed CrashKind.sslExhausted)
        | (Except.error DLErr.transport, fs1, _) => (fs1, StepOutcome.crashed CrashKind.transport)
        | (Except.ok (file_path, content_type), fs1, _) =>
          let suffix := pyLower (nameSuffix file_path)
          let (fs2, t) := tagPhase ctx kind kind_norm date_iso location_str
            lat lon content_type file_path suffix fs1
          (fs2, StepOutcome.done t)

/-- The whole row loop: items are processed in order; an uncaught exception
stops the run, every other outcome moves on to the next row. -/
def runRows (env : Env) (ctxOf : Nat → ItemCtx) (starting_index : Nat)
    (out_dir : String) : List (Nat × Row) → FS → FS × Option CrashKind
  | [], fs => (fs, none)
  | (i, row) :: rest, fs =>
    match processRow env (ctxOf i) starting_index out_dir i row fs with
    | (fs1, StepOutcome.crashed k) => (fs1, some k)
    | (fs1, _) => runRows env ctxOf starting_index out_dir rest fs1

/-- The ways a tagging branch can raise, keyed by the branch the `elif`
chain actually reaches: video remux with ffmpeg available, JPEG/TIFF EXIF,
or PNG text. -/
def branchErr (ctx : ItemCtx) (kind_norm suffix : String) (e : String) : Prop :=
  (kind_norm = "video" ∧ ctx.ffmpegAvailable = true ∧ ctx.videoResult = Except.error e)
  ∨ (kind_norm = "image" ∧ jpegSuffixes.contains suffix = true ∧
      ctx.exifResult = Except.error e)
  ∨ (kind_norm = "image" ∧ jpegSuffixes.contains suffix = false ∧ suffix = ".png" ∧
      ctx.pngResult = Except.error e)

/-! ### Helper lemmas -/

theorem fsWrite_self (fs : FS) (p : String) (d : FileData) : fsWrite fs p d p = some d := by
  simp [fsWrite]

theorem fsWrite_other (fs : FS) (p q : String) (d : FileData) (h : q ≠ p) :
    fsWrite fs p d q = fs q := by
  simp [fsWrite, h]

theorem fsRename_dst (fs : FS) (src dst : String) : fsRename fs src dst dst = fs src := by
  simp [fsRename]

theorem fsRename_other (fs : FS) (src dst q : String) (h1 : q ≠ src) (h2 : q ≠ dst) :
    fsRename fs src dst q = fs q := by
  simp [fsRename, h1, h2]

theorem toList_append (s t : String) : (s ++ t).toList = s.toList ++ t.toList :=
  String.data_append s t

theorem toList_asString (l : List Char) : l.asString.toList = l := rfl

theorem takeWhile_len_le (p : Char → Bool) (l : List Char) :
    (l.takeWhile p).length ≤ l.length := by
  induction l with
  | nil => simp
  | cons c rest ih =>
    by_cases h : p c
    · simp [List.takeWhile, h]; omega
    · simp [List.takeWhile, h]

theorem lastDotSplit_ext_len (name stem ext : List Char)
    (h : lastDotSplit name = some (stem, ext)) : ext.length + 1 ≤ name.length := by
  unfold lastDotSplit at h
  dsimp only at h
  have hsum := congrArg List.length
    (List.takeWhile_append_dropWhile (p := fun c => c ≠ '.') (l := name.reverse))
  rw [List.length_append, List.length_reverse] at hsum
  split at h
  · exact absurd h (by simp)
  · rename_i c revStem hd
    rw [hd] at hsum
    have hext : ext = (name.reverse.takeWhile (fun c => c ≠ '.')).reverse := by
      have := Option.some.inj h
      exact (congrArg Prod.snd this).symm
    rw [hext, List.length_reverse]
    simp only [List.length_cons] at hsum
    omega

theorem nameOf_length_le (p : String) : (nameOf p).toList.length ≤ p.toList.length := by
  have h : (nameOf p).toList = (p.toList.reverse.takeWhile (fun c => c ≠ '/')).reverse := rfl
  rw [h, List.length_reverse]
  calc (p.toList.reverse.takeWhile (fun c => c ≠ '/')).length
      ≤ p.toList.reverse.length := takeWhile_len_le _ _
    _ = p.toList.length := List.length_reverse _

theorem nameSuffix_length_le (p : String) :
    (nameSuffix p).toList.length ≤ p.toList.length := by
  unfold nameSuffix
  split
  · simp
  · rename_i stem ext hsplit
    split
    · have h1 := lastDotSplit_ext_len _ _ _ hsplit
      have h2 := nameOf_length_le p
      have h3 : (String.mk ('.' :: ext)).toList.length = ext.length + 1 := by
        simp [String.toList]
      omega
    · simp

theorem sidecarPath_toList_length (p : String) :
    (sidecarPath p).toList.length = p.toList.length + 5 := by
  have h5 : (".json".toList).length = 5 := by decide
  unfold sidecarPath withSuffix
  by_cases h : nameSuffix p = ""
  · rw [if_pos h, toList_append, toList_append, List.length_append, List.length_append, h]
    simp [h5]
  · rw [if_neg h, toList_append, toList_append, toList_asString,
      List.length_append, List.length_append, List.length_take, h5]
    have hk := nameSuffix_length_le p
    omega

theorem sidecarPath_ne (p : String) : sidecarPath p ≠ p := by
  intro h
  have := sidecarPath_toList_length p
  rw [h] at this
  omega

theorem writeSidecar_artifact (fs : FS) (p : String) (sc : SidecarJson) :
    writeSidecar fs p sc p = fs p := by
  unfold writeSidecar
  exact fsWrite_other fs (sidecarPath p) p (FileData.sidecar sc) (fun h => sidecarPath_ne p h.symm)

theorem writeSidecar_sidecar (fs : FS) (p : String) (sc : SidecarJson) :
    writeSidecar fs p sc (sidecarPath p) = some (FileData.sidecar sc) := by
  unfold writeSidecar
  exact fsWrite_self fs (sidecarPath p) (FileData.sidecar sc)

/-- A successful run of the retry loop: some attempt `j` in range returned
the body that now sits in the temporary file, every earlier attempt was an
`SSLError`, and no path other than the temporary file was touched. -/
theorem runAttempts_ok_spec (attempts : Nat → FetchOutcome) (tmp : String) :
    ∀ (rem a0 : Nat) (fs : FS) (tr : List Ev) (ct : Option String) (fs1 : FS) (tr1 : List Ev),
      runAttempts attempts tmp a0 rem fs tr = (Except.ok ct, fs1, tr1) →
      ∃ j body, a0 ≤ j ∧ j < a0 + rem ∧ attempts j = FetchOutcome.ok ct body ∧
        fs1 tmp = some (FileData.bytes body) ∧
        (∀ p, p ≠ tmp → fs1 p = fs p) ∧
        (∀ k, a0 ≤ k → k < j → ∃ pb, attempts k = FetchOutcome.sslError pb) := by
  intro rem
  induction rem with
  | zero =>
    intro a0 fs tr ct fs1 tr1 h
    exact absurd (congrArg Prod.fst h) (by simp [runAttempts])
  | succ rem ih =>
    intro a0 fs tr ct fs1 tr1 h
    rw [runAttempts] at h
    dsimp only at h
    cases hA : attempts a0 with
    | ok ct2 body =>
      rw [hA] at h
      rw [Prod.mk.injEq, Prod.mk.injEq] at h
      obtain ⟨h1, h2, h3⟩ := h
      have hct : ct2 = ct := Except.ok.inj h1
      refine ⟨a0, body, le_refl a0, by omega, by rw [hA, hct], ?_, ?_, ?_⟩
      · rw [← h2]; exact fsWrite_self fs tmp (FileData.bytes body)
      · intro p hp; rw [← h2]; exact fsWrite_other fs tmp p (FileData.bytes body) hp
      · intro k hk1 hk2; omega
    | httpError =>
      rw [hA] at h
      exact absurd (congrArg Prod.fst h) (by simp)
    | otherError =>
      rw [hA] at h
      exact absurd (congrArg Prod.fst h) (by simp)
    | sslError part =>
      rw [hA] at h
      dsimp only at h
      by_cases hr : rem = 0
      · rw [hr] at h
        simp only [if_pos rfl] at h
        exact absurd (congrArg Prod.fst h) (by simp)
      · rw [if_neg hr] at h
        obtain ⟨j, body, hj1, hj2, hj3, hj4, hj5, hj6⟩ :=
          ih (a0 + 1) _ _ ct fs1 tr1 h
        refine ⟨j, body, by omega, by omega, hj3, hj4, ?_, ?_⟩
        · intro p hp
          rw [hj5 p hp]
          cases part with
          | none => rfl
          | some b => exact fsWrite_other fs tmp p (FileData.bytes b) hp
        · intro k hk1 hk2
          rcases Nat.eq_or_lt_of_le hk1 with rfl | hlt
          · exact ⟨part, hA⟩
          · exact hj6 k hlt hk2

/-- A failed run of the retry loop leaves every path other than the
temporary file untouched. -/
theorem runAttempts_err_spec (attempts : Nat → FetchOutcome) (tmp : String) :
    ∀ (rem a0 : Nat) (fs : FS) (tr : List Ev) (e : DLErr) (fs1 : FS) (tr1 : List Ev),
      runAttempts attempts tmp a0 rem fs tr = (Except.error e, fs1, tr1) →
      ∀ p, p ≠ tmp → fs1 p = fs p := by
  intro rem
  induction rem with
  | zero =>
    intro a0 fs tr e fs1 tr1 h p hp
    have h2 := congrArg (fun x => x.2.1) h
    simp only [runAttempts] at h2
    rw [← h2]
  | succ rem ih =>
    intro a0 fs tr e fs1 tr1 h p hp
    rw [runAttempts] at h
    dsimp only at h
    cases hA : attempts a0 with
    | ok ct2 body =>
      rw [hA] at h
      exact absurd (congrArg Prod.fst h) (by simp)
    | httpError =>
      rw [hA] at h
      have h2 := congrArg (fun x => x.2.1) h
      simp only at h2
      rw [← h2]
    | otherError =>
      rw [hA] at h
      have h2 := congrArg (fun x => x.2.1) h
      simp only at h2
      rw [← h2]
    | sslError part =>
      rw [hA] at h
      dsimp only at h
      have hstep : ∀ q, q ≠ tmp →
          (match part with
            | some b => fsWrite fs tmp (FileData.bytes b)
            | none => fs) q = fs q := by
        intro q hq
        cases part with
        | none => rfl
        | some b => exact fsWrite_other fs tmp q (FileData.bytes b) hq
      by_cases hr : rem = 0
      · rw [hr] at h
        simp only [if_pos rfl] at h
        have h2 := congrArg (fun x => x.2.1) h
        simp only at h2
        rw [← h2]
        exact hstep p hp
      · rw [if_neg hr] at h
        rw [ih (a0 + 1) _ _ e fs1 tr1 h p hp]
        exact hstep p hp

/-- Python 3 `round` never strays more than half a unit. -/
theorem pyRound_abs_le (y : ℚ) : |(pyRound y : ℚ) - y| ≤ 1 / 2 := by
  have h0 : ((Int.floor y : ℤ) : ℚ) ≤ y := Int.floor_le y
  have h1 : y < (Int.floor y : ℤ) + 1 := Int.lt_floor_add_one y
  unfold pyRound
  dsimp only
  split_ifs with hf hg he
  · rw [abs_le]; constructor <;> linarith
  · rw [abs_le]; push_cast; constructor <;> linarith
  · rw [abs_le]; constructor <;> linarith
  · rw [abs_le]; push_cast; constructor <;> linarith

/-- Decoding the DMS triple recovers the absolute value of the input to
within `1/720000` of a degree, in particular within `1/360000`. -/
theorem dms_roundtrip (q : ℚ) :
    abs (dmsToDeg (_deg_to_dms_rational q) - abs q) ≤ 1 / 360000 := by
  unfold _deg_to_dms_rational dmsToDeg
  dsimp only
  push_cast
  set x := |q| with hx
  set s : ℚ := ((x - (Int.floor x : ℤ)) * 60 - (Int.floor ((x - (Int.floor x : ℤ)) * 60) : ℤ)) * 60 with hs
  have heq : ((Int.floor x : ℤ) : ℚ) / 1 +
      ((Int.floor ((x - (Int.floor x : ℤ)) * 60) : ℤ) : ℚ) / 1 / 60 +
      ((pyRound (s * 100) : ℤ) : ℚ) / 100 / 3600 - x
      = ((pyRound (s * 100) : ℤ) : ℚ) / 360000 - (s * 100) / 360000 := by
    rw [hs]; ring
  rw [heq]
  have hclose := pyRound_abs_le (s * 100)
  rw [div_sub_div_same, abs_div, abs_of_pos (by norm_num : (0:ℚ) < 360000)]
  rw [div_le_div_iff₀ (by norm_num) (by norm_num)]
  linarith

/-! ### Concrete objects used by the witnesses -/

/-- The empty output directory. -/
def fsEmpty : FS := fun _ => none

/-- A directory holding one downloaded artifact that starts with the zip
signature. -/
def fsZipDemo : FS :=
  fun p => if p = "out/7_m.mp4" then some (FileData.bytes [80, 75, 3, 4, 9, 9]) else none

/-- A directory holding one JPEG artifact (no zip signature). -/
def fsJpegDemo : FS :=
  fun p => if p = "out/7_m.jpg" then some (FileData.bytes [255, 216, 255, 224]) else none

/-- An all-successful item context. -/
def ctxDemo : ItemCtx :=
  { attempts := fun _ => FetchOutcome.ok none []
    ffmpegAvailable := true
    videoResult := Except.ok []
    exifResult := Except.ok []
    pngResult := Except.ok [] }

/-! ### The claims -/

/-- Claim C6: For every file path and declared content-type: if the
content-type's media-type part (before any `;` parameter, case-insensitive)
is `application/zip` or `application/x-zip-compressed`, `is_zip` returns
true regardless of the file's bytes; otherwise, if the first four bytes of
the file equal the ZIP local-file-header signature `PK\x03\x04`, `is_zip`
returns true regardless of the declared content-type, including when the
content-type is absent. -/
theorem claim_C6_zip_classification :
    (∀ (fs : FS) (path c : String), c ≠ "" →
      zipMimes.contains (normCT c) = true →
      is_zip fs path (some c) = true)
    ∧ (∀ (fs : FS) (path : String) (ct : Option String) (bs : List Nat),
      fs path = some (FileData.bytes bs) → bs.take 4 = zipSig →
      is_zip fs path ct = true) := by
  constructor
  · intro fs path c hc hmem
    simp at hmem
    simp [is_zip, zipHeaderCT, hc, hmem]
  · intro fs path ct bs hfs hsig
    cases h : zipHeaderCT ct with
    | true => simp [is_zip, h]
    | false => simp [is_zip, h, hfs, hsig]

/-- Witness for C6: a zip content-type with non-zip bytes underneath, and a
zip-signature file with no content-type at all, both classified as zip. -/
theorem claim_C6_zip_classification_witness :
    is_zip fsJpegDemo "out/7_m.jpg" (some "application/zip; charset=x") = true
    ∧ is_zip fsZipDemo "out/7_m.mp4" none = true := by
  constructor
  · exact claim_C6_zip_classification.1 fsJpegDemo "out/7_m.jpg"
      "application/zip; charset=x" (by decide) (by decide)
  · exact claim_C6_zip_classification.2 fsZipDemo "out/7_m.mp4" none
      [80, 75, 3, 4, 9, 9] rfl (by decide)

/-- Claim C10: `is_zip` is total over its inputs: it returns a boolean and
never raises — when the declared content-type is a zip MIME string it
returns true without reading the file at all (the result is the same for
every file system), and when the content-type is not a zip MIME and the
file is absent or unreadable (the read raises `OSError`) it returns false
rather than propagating the error. -/
theorem claim_C10_is_zip_total :
    (∀ (fs fs2 : FS) (path : String) (ct : Option String),
      zipHeaderCT ct = true →
      is_zip fs path ct = true ∧ is_zip fs path ct = is_zip fs2 path ct)
    ∧ (∀ (fs : FS) (path : String) (ct : Option String),
      zipHeaderCT ct = false →
      fs path = none ∨ fs path = some FileData.unreadable →
      is_zip fs path ct = false) := by
  constructor
  · intro fs fs2 path ct h
    constructor
    · simp [is_zip, h]
    · simp [is_zip, h]
  · intro fs path ct h habs
    rcases habs with habs | habs
    · simp [is_zip, h, habs]
    · simp [is_zip, h, habs]

/-- Witness for C10: a zip MIME string classified as zip over two different
file systems, and a plain content-type over an absent and over an
unreadable file classified as not-zip. -/
theorem claim_C10_is_zip_total_witness :
    (is_zip fsEmpty "gone" (some "application/x-zip-compressed") = true
      ∧ is_zip fsEmpty "gone" (some "application/x-zip-compressed")
          = is_zip fsZipDemo "gone" (some "application/x-zip-compressed"))
    ∧ is_zip fsEmpty "gone" (some "image/jpeg") = false
    ∧ is_zip (fun p => if p = "locked" then some FileData.unreadable else none)
        "locked" none = false := by
  refine ⟨?_, ?_, ?_⟩
  · exact claim_C10_is_zip_total.1 fsEmpty fsZipDemo "gone"
      (some "application/x-zip-compressed") (by decide)
  · exact claim_C10_is_zip_total.2 fsEmpty "gone" (some "image/jpeg")
      (by decide) (Or.inl rfl)
  · exact claim_C10_is_zip_total.2 _ "locked" none (by decide) (Or.inr (by decide))

/-- Claim C8: When an artifact is classified as zip, `save_zip` renames it
in place to carry a `.zip` extension and its byte content is left
untouched; if the artifact's suffix is already `.zip` no rename is
performed (re-applying zip handling is a no-op); and in the orchestrator
the zip branch is taken before and instead of any video or image tagging,
even when the declared kind is `Video` or `Image`. -/
theorem claim_C8_zip_priority :
    (∀ (fs : FS) (p : String), save_zip fs p ".zip" = fs)
    ∧ (∀ (fs : FS) (p suffix : String),
        save_zip fs p suffix (zipTarget p suffix) = fs p)
    ∧ (∀ (ctx : ItemCtx) (kind kind_norm date_iso location_str : String)
        (lat lon : Option ℚ) (content_type : Option String)
        (file_path suffix : String) (fs : FS),
        is_zip fs file_path content_type = true →
        tagPhase ctx kind kind_norm date_iso location_str lat lon content_type
          file_path suffix fs
          = (save_zip fs file_path suffix, Terminal.zipped)) := by
  refine ⟨?_, ?_, ?_⟩
  · intro fs p
    simp [save_zip, zipTarget]
  · intro fs p suffix
    unfold save_zip
    by_cases h : zipTarget p suffix ≠ p
    · rw [if_pos h]
      exact fsRename_dst fs p (zipTarget p suffix)
    · rw [if_neg h]
      rw [not_not.mp h]
  · intro ctx kind kind_norm date_iso location_str lat lon content_type file_path suffix fs h
    simp [tagPhase, h]

/-- Witness for C8: a zip-signature artifact declared as `Video` with
ffmpeg available is renamed to `.zip` (content preserved), not
video-tagged. -/
theorem claim_C8_zip_priority_witness :
    tagPhase ctxDemo "Video" "video" "2025-11-12T21:05:03Z" "loc" none none none
        "out/7_m.mp4" ".mp4" fsZipDemo
      = (save_zip fsZipDemo "out/7_m.mp4" ".mp4", Terminal.zipped)
    ∧ save_zip fsZipDemo "out/7_m.mp4" ".mp4" (zipTarget "out/7_m.mp4" ".mp4")
      = fsZipDemo "out/7_m.mp4"
    ∧ save_zip fsEmpty "out/8_a.zip" ".zip" = fsEmpty := by
  refine ⟨?_, ?_, ?_⟩
  · exact claim_C8_zip_priority.2.2 ctxDemo "Video" "video" "2025-11-12T21:05:03Z"
      "loc" none none none "out/7_m.mp4" ".mp4" fsZipDemo (by decide)
  · exact claim_C8_zip_priority.2.1 fsZipDemo "out/7_m.mp4" ".mp4"
  · exact claim_C8_zip_priority.1 fsEmpty "out/8_a.zip"

/-- Claim C9: For every pair of decimal-degree coordinates, the EXIF GPS
encoding produced for a JPEG satisfies the round-trip bound: decoding each
degrees/minutes/seconds rational triple from `_deg_to_dms_rational` back to
decimal degrees (as `d + m/60 + s/3600`, the seconds rational having
denominator 100) yields a value within `1/360000` of a degree of the
absolute value of the input, and the hemisphere reference letters are
`N`/`S` according to the latitude's sign and `E`/`W` according to the
longitude's sign. -/
theorem claim_C9_gps_roundtrip (la lo : ℚ) (d loc : String) :
    ∃ g : GpsIfd, (tag_jpeg_tiff_exif d (some la) (some lo) loc).gps = some g ∧
      g.latRef = (if 0 ≤ la then "N" else "S") ∧
      g.lonRef = (if 0 ≤ lo then "E" else "W") ∧
      g.lat = _deg_to_dms_rational la ∧
      g.lon = _deg_to_dms_rational lo ∧
      g.lat.2.2.2 = 100 ∧ g.lon.2.2.2 = 100 ∧
      abs (dmsToDeg g.lat - abs la) ≤ 1 / 360000 ∧
      abs (dmsToDeg g.lon - abs lo) ≤ 1 / 360000 := by
  exact ⟨_, rfl, rfl, rfl, rfl, rfl, rfl, rfl, dms_roundtrip la, dms_roundtrip lo⟩

/-- Claim C7: `guess_ext` resolves the extension by priority: a present
declared content-type mapped to a canonical extension, with `video/mp4`
mapping to `.mp4` and `image/jpeg` mapping to `.jpg`; else the suffix of
the URL's path; else unknown (empty).  In `download_file`, when the
resolved extension is unknown and the declared kind is `image` the final
path gets suffix `.jpg`; when it is unknown and the kind is not `image` the
final file name is extensionless. -/
theorem claim_C7_extension_priority :
    (∀ (m : String → Option String) (url c : String), c ≠ "" →
      normCT c = "video/mp4" → guess_ext m url (some c) = ".mp4")
    ∧ (∀ (m : String → Option String) (url c : String), c ≠ "" →
      normCT c = "image/jpeg" → guess_ext m url (some c) = ".jpg")
    ∧ (∀ (m : String → Option String) (url c e : String), c ≠ "" →
      normCT c ≠ "video/mp4" → normCT c ≠ "image/jpeg" →
      m (normCT c) = some e → e ≠ "" → guess_ext m url (some c) = e)
    ∧ (∀ (m : String → Option String) (url c : String), c ≠ "" →
      normCT c ≠ "video/mp4" → normCT c ≠ "image/jpeg" →
      (m (normCT c)).getD "" = "" →
      guess_ext m url (some c) = nameSuffix (urlPath url))
    ∧ (∀ (m : String → Option String) (url : String),
      guess_ext m url none = nameSuffix (urlPath url))
    ∧ (∀ (m : String → Option String) (url : String),
      guess_ext m url (some "") = nameSuffix (urlPath url))
    ∧ (∀ (m : String → Option String) (attempts : Nat → FetchOutcome)
        (url stem kind : String) (fs : FS) (final : String) (ct : Option String)
        (fs1 : FS) (tr : List Ev),
      download_file m attempts url stem kind fs = (Except.ok (final, ct), fs1, tr) →
      final = (if guess_ext m url ct = "" ∧ kind = "image" then withSuffix stem ".jpg"
               else withSuffix stem (guess_ext m url ct)))
    ∧ (∀ stem : String, nameSuffix stem = "" →
      withSuffix stem ".jpg" = stem ++ ".jpg" ∧ withSuffix stem "" = stem) := by
  refine ⟨?_, ?_, ?_, ?_, ?_, ?_, ?_, ?_⟩
  · intro m url c hc hct
    simp [guess_ext, hc, hct]
  · intro m url c hc hct
    simp [guess_ext, hc, hct]
  · intro m url c e hc h1 h2 hm he
    simp [guess_ext, hc, h1, h2, hm, he]
  · intro m url c hc h1 h2 hm
    simp [guess_ext, hc, h1, h2, hm]
  · intro m url
    simp [guess_ext]
  · intro m url
    simp [guess_ext]
  · intro m attempts url stem kind fs final ct fs1 tr h
    unfold download_file at h
    dsimp only at h
    rcases hr : runAttempts attempts (withSuffix stem ".download") 1 3 fs [] with ⟨res, fsx, trx⟩
    rw [hr] at h
    cases res with
    | error e =>
      dsimp only at h
      exact absurd (congrArg Prod.fst h) (by simp)
    | ok ct2 =>
      dsimp only at h
      rw [Prod.mk.injEq] at h
      have h1 := h.1
      rw [Except.ok.injEq, Prod.mk.injEq] at h1
      rw [← h1.1, ← h1.2]
  · intro stem h
    unfold withSuffix
    rw [if_pos h, if_pos h]
    exact ⟨rfl, by simp⟩

/-- Witness for C7: the two overrides, a table-mapped type, the URL-suffix
fallback, the absent content-type fallback, and the final-path naming in
`download_file` for an unknown extension with kind `image` and with kind
`video`. -/
theorem claim_C7_extension_priority_witness :
    guess_ext (fun _ => some ".m4v") "http://h/x.bin" (some "Video/MP4; q=1") = ".mp4"
    ∧ guess_ext (fun _ => some ".jpe") "http://h/x.bin" (some "image/jpeg") = ".jpg"
    ∧ guess_ext (fun ct => if ct = "image/png" then some ".png" else none)
        "http://h/x.bin" (some "image/png") = ".png"
    ∧ guess_ext (fun _ => none) "http://h/x.bin" (some "application/weird")
        = nameSuffix (urlPath "http://h/x.bin")
    ∧ guess_ext (fun _ => none) "http://h/x.bin" none = nameSuffix (urlPath "http://h/x.bin")
    ∧ (download_file (fun _ => none) (fun _ => FetchOutcome.ok none [7])
        "http://h/plain" "out/0_t" "image" fsEmpty).1
        = Except.ok ("out/0_t.jpg", none)
    ∧ (download_file (fun _ => none) (fun _ => FetchOutcome.ok none [7])
        "http://h/plain" "out/0_t" "video" fsEmpty).1
        = Except.ok ("out/0_t", none) := by
  refine ⟨?_, ?_, ?_, ?_, ?_, ?_, ?_⟩
  · exact claim_C7_extension_priority.1 (fun _ => some ".m4v") "http://h/x.bin"
      "Video/MP4; q=1" (by decide) (by decide)
  · exact claim_C7_extension_priority.2.1 (fun _ => some ".jpe") "http://h/x.bin"
      "image/jpeg" (by decide) (by decide)
  · exact claim_C7_extension_priority.2.2.1 (fun ct => if ct = "image/png" then some ".png" else none)
      "http://h/x.bin" "image/png" ".png" (by decide) (by decide) (by decide) (by decide) (by decide)
  · exact claim_C7_extension_priority.2.2.2.1 (fun _ => none) "http://h/x.bin"
      "application/weird" (by decide) (by decide) (by decide) rfl
  · exact claim_C7_extension_priority.2.2.2.2.1 (fun _ => none) "http://h/x.bin"
  · have h := claim_C7_extension_priority.2.2.2.2.2.2.1 (fun _ => none)
      (fun _ => FetchOutcome.ok none [7]) "http://h/plain" "out/0_t" "image" fsEmpty
      "out/0_t.jpg" none
      ((download_file (fun _ => none) (fun _ => FetchOutcome.ok none [7])
        "http://h/plain" "out/0_t" "image" fsEmpty).2.1)
      ((download_file (fun _ => none) (fun _ => FetchOutcome.ok none [7])
        "http://h/plain" "out/0_t" "image" fsEmpty).2.2) rfl
    exact rfl
  · have h := claim_C7_extension_priority.2.2.2.2.2.2.1 (fun _ => none)
      (fun _ => FetchOutcome.ok none [7]) "http://h/plain" "out/0_t" "video" fsEmpty
      "out/0_t" none
      ((download_file (fun _ => none) (fun _ => FetchOutcome.ok none [7])
        "http://h/plain" "out/0_t" "video" fsEmpty).2.1)
      ((download_file (fun _ => none) (fun _ => FetchOutcome.ok none [7])
        "http://h/plain" "out/0_t" "video" fsEmpty).2.2) rfl
    exact rfl

/-- One unfolding step of the retry loop. -/
theorem runAttempts_unfold (attempts : Nat → FetchOutcome) (tmp : String)
    (a0 rem : Nat) (fs : FS) (tr : List Ev) :
    runAttempts attempts tmp a0 (rem + 1) fs tr =
      (match attempts a0 with
       | FetchOutcome.ok ct body =>
         (Except.ok ct, fsWrite fs tmp (FileData.bytes body), tr ++ [Ev.attempt a0])
       | FetchOutcome.httpError => (Except.error DLErr.http, fs, tr ++ [Ev.attempt a0])
       | FetchOutcome.otherError => (Except.error DLErr.transport, fs, tr ++ [Ev.attempt a0])
       | FetchOutcome.sslError part =>
         if rem = 0 then
           (Except.error DLErr.ssl,
             (match part with
               | some b => fsWrite fs tmp (FileData.bytes b)
               | none => fs),
             tr ++ [Ev.attempt a0])
         else
           runAttempts attempts tmp (a0 + 1) rem
             (match part with
               | some b => fsWrite fs tmp (FileData.bytes b)
               | none => fs)
             (tr ++ [Ev.attempt a0] ++ [Ev.sleep 60])) := rfl

/-- Claim C5: `download_file` retries only on the TLS/SSL error class,
making at most 3 total attempts with a fixed 60-second sleep between
attempts, and re-raises the TLS error after the third failed attempt;
every other transport failure (including HTTP status errors raised from
the response) propagates to the caller immediately on the first attempt
without any retry or delay. -/
theorem claim_C5_retry_policy :
    (∀ (m : String → Option String) (attempts : Nat → FetchOutcome)
        (url stem kind : String) (fs : FS),
      attempts 1 = FetchOutcome.httpError →
      download_file m attempts url stem kind fs
        = (Except.error DLErr.http, fs, [Ev.attempt 1]))
    ∧ (∀ (m : String → Option String) (attempts : Nat → FetchOutcome)
        (url stem kind : String) (fs : FS),
      attempts 1 = FetchOutcome.otherError →
      download_file m attempts url stem kind fs
        = (Except.error DLErr.transport, fs, [Ev.attempt 1]))
    ∧ (∀ (m : String → Option String) (attempts : Nat → FetchOutcome)
        (url stem kind : String) (fs : FS) (p1 p2 p3 : Option (List Nat)),
      attempts 1 = FetchOutcome.sslError p1 →
      attempts 2 = FetchOutcome.sslError p2 →
      attempts 3 = FetchOutcome.sslError p3 →
      (download_file m attempts url stem kind fs).1 = Except.error DLErr.ssl ∧
      (download_file m attempts url stem kind fs).2.2
        = [Ev.attempt 1, Ev.sleep 60, Ev.attempt 2, Ev.sleep 60, Ev.attempt 3])
    ∧ (∀ (m : String → Option String) (attempts : Nat → FetchOutcome)
        (url stem kind : String) (fs : FS) (p1 : Option (List Nat))
        (ct : Option String) (body : List Nat),
      attempts 1 = FetchOutcome.sslError p1 →
      attempts 2 = FetchOutcome.ok ct body →
      (download_file m attempts url stem kind fs).2.2
        = [Ev.attempt 1, Ev.sleep 60, Ev.attempt 2] ∧
      ∃ final, (download_file m attempts url stem kind fs).1
        = Except.ok (final, ct)) := by
  refine ⟨?_, ?_, ?_, ?_⟩
  · intro m attempts url stem kind fs h1
    unfold download_file
    dsimp only
    rw [show (3 : Nat) = 2 + 1 from rfl, runAttempts_unfold, h1]
    simp
  · intro m attempts url stem kind fs h1
    unfold download_file
    dsimp only
    rw [show (3 : Nat) = 2 + 1 from rfl, runAttempts_unfold, h1]
    simp
  · intro m attempts url stem kind fs p1 p2 p3 h1 h2 h3
    unfold download_file
    dsimp only
    rw [show (3 : Nat) = 2 + 1 from rfl, runAttempts_unfold, h1]
    simp only [if_neg (by omega : ¬(2 : Nat) = 0)]
    rw [show (2 : Nat) = 1 + 1 from rfl, runAttempts_unfold, h2]
    simp only [if_neg (by omega : ¬(1 : Nat) = 0)]
    rw [show (1 : Nat) = 0 + 1 from rfl, runAttempts_unfold, h3]
    simp only [if_pos rfl]
    simp
  · intro m attempts url stem kind fs p1 ct body h1 h2
    unfold download_file
    dsimp only
    rw [show (3 : Nat) = 2 + 1 from rfl, runAttempts_unfold, h1]
    simp only [if_neg (by omega : ¬(2 : Nat) = 0)]
    rw [show (2 : Nat) = 1 + 1 from rfl, runAttempts_unfold, h2]
    dsimp only
    refine ⟨by simp, ⟨_, rfl⟩⟩

/-- Witness for C5: an immediate HTTP failure and an immediate
non-SSL transport failure each make exactly one attempt with no sleep;
three SSL failures make three attempts with two 60-second sleeps and
re-raise; an SSL failure followed by a success retries exactly once. -/
theorem claim_C5_retry_policy_witness :
    download_file (fun _ => none) (fun _ => FetchOutcome.httpError)
        "http://h/a" "o/s" "image" fsEmpty
      = (Except.error DLErr.http, fsEmpty, [Ev.attempt 1])
    ∧ download_file (fun _ => none) (fun _ => FetchOutcome.otherError)
        "http://h/a" "o/s" "image" fsEmpty
      = (Except.error DLErr.transport, fsEmpty, [Ev.attempt 1])
    ∧ (download_file (fun _ => none) (fun _ => FetchOutcome.sslError none)
        "http://h/a" "o/s" "image" fsEmpty).1 = Except.error DLErr.ssl
    ∧ (download_file (fun _ => none) (fun _ => FetchOutcome.sslError none)
        "http://h/a" "o/s" "image" fsEmpty).2.2
      = [Ev.attempt 1, Ev.sleep 60, Ev.attempt 2, Ev.sleep 60, Ev.attempt 3]
    ∧ (download_file (fun _ => none)
        (fun n => if n = 1 then FetchOutcome.sslError (some [1])
                  else FetchOutcome.ok (some "video/mp4") [1, 2])
        "http://h/a" "o/s" "video" fsEmpty).2.2
      = [Ev.attempt 1, Ev.sleep 60, Ev.attempt 2] := by
  refine ⟨?_, ?_, ?_, ?_, ?_⟩
  · exact claim_C5_retry_policy.1 (fun _ => none) (fun _ => FetchOutcome.httpError)
      "http://h/a" "o/s" "image" fsEmpty rfl
  · exact claim_C5_retry_policy.2.1 (fun _ => none) (fun _ => FetchOutcome.otherError)
      "http://h/a" "o/s" "image" fsEmpty rfl
  · exact (claim_C5_retry_policy.2.2.1 (fun _ => none) (fun _ => FetchOutcome.sslError none)
      "http://h/a" "o/s" "image" fsEmpty none none none rfl rfl rfl).1
  · exact (claim_C5_retry_policy.2.2.1 (fun _ => none) (fun _ => FetchOutcome.sslError none)
      "http://h/a" "o/s" "image" fsEmpty none none none rfl rfl rfl).2
  · exact (claim_C5_retry_policy.2.2.2 (fun _ => none)
      (fun n => if n = 1 then FetchOutcome.sslError (some [1])
                else FetchOutcome.ok (some "video/mp4") [1, 2])
      "http://h/a" "o/s" "video" fsEmpty (some [1]) (some "video/mp4") [1, 2]
      rfl rfl).1

/-- Claim C2: For every invocation of `download_file`, a file appears at the
final destination path (stem plus resolved extension) only by renaming the
temporary `.download` file after the entire response body has been written
and the transfer completed successfully; if `download_file` raises (HTTP
status error, exhausted retries, or any transport failure), no file exists
at the final path — the final path never holds a partial download. -/
theorem claim_C2_atomic_final_path :
    (∀ (m : String → Option String) (attempts : Nat → FetchOutcome)
        (url stem kind : String) (fs : FS) (final : String) (ct : Option String)
        (fs1 : FS) (tr : List Ev),
      download_file m attempts url stem kind fs = (Except.ok (final, ct), fs1, tr) →
      ∃ j body, 1 ≤ j ∧ j ≤ 3 ∧ attempts j = FetchOutcome.ok ct body ∧
        (∀ k, 1 ≤ k → k < j → ∃ pb, attempts k = FetchOutcome.sslError pb) ∧
        fs1 final = some (FileData.bytes body) ∧
        (∀ p, p ≠ withSuffix stem ".download" → p ≠ final → fs1 p = fs p))
    ∧ (∀ (m : String → Option String) (attempts : Nat → FetchOutcome)
        (url stem kind : String) (fs : FS) (e : DLErr) (fs1 : FS) (tr : List Ev),
      download_file m attempts url stem kind fs = (Except.error e, fs1, tr) →
      ∀ p, p ≠ withSuffix stem ".download" → fs1 p = fs p) := by
  constructor
  · intro m attempts url stem kind fs final ct fs1 tr h
    unfold download_file at h
    dsimp only at h
    rcases hr : runAttempts attempts (withSuffix stem ".download") 1 3 fs [] with ⟨res, fsx, trx⟩
    rw [hr] at h
    cases res with
    | error e =>
      dsimp only at h
      exact absurd (congrArg Prod.fst h) (by simp)
    | ok ct2 =>
      dsimp only at h
      rw [Prod.mk.injEq] at h
      obtain ⟨h1, h2⟩ := h
      rw [Except.ok.injEq, Prod.mk.injEq] at h1
      obtain ⟨hfin, hct⟩ := h1
      rw [Prod.mk.injEq] at h2
      obtain ⟨hfs, -⟩ := h2
      obtain ⟨j, body, hj1, hj2, hj3, hj4, hj5, hj6⟩ :=
        runAttempts_ok_spec attempts (withSuffix stem ".download") 3 1 fs [] ct2 fsx trx hr
      refine ⟨j, body, hj1, by omega, by rw [← hct]; exact hj3, hj6, ?_, ?_⟩
      · rw [← hfs, hfin]
        rw [fsRename_dst]
        exact hj4
      · intro p hp1 hp2
        rw [← hfs, hfin]
        rw [fsRename_other fsx (withSuffix stem ".download") final p hp1 hp2]
        exact hj5 p hp1
  · intro m attempts url stem kind fs e fs1 tr h
    unfold download_file at h
    dsimp only at h
    rcases hr : runAttempts attempts (withSuffix stem ".download") 1 3 fs [] with ⟨res, fsx, trx⟩
    rw [hr] at h
    cases res with
    | ok ct2 =>
      dsimp only at h
      exact absurd (congrArg Prod.fst h) (by simp)
    | error e2 =>
      dsimp only at h
      rw [Prod.mk.injEq, Prod.mk.injEq] at h
      obtain ⟨-, hfs, -⟩ := h
      rw [← hfs]
      exact runAttempts_err_spec attempts (withSuffix stem ".download") 3 1 fs [] e2 fsx trx hr

/-- Witness for C2: a download that succeeds on the second attempt leaves
the complete body at the final path; a download that fails with an HTTP
error leaves the (previously absent) final path absent. -/
theorem claim_C2_atomic_final_path_witness :
    (download_file (fun _ => none)
        (fun n => if n = 1 then FetchOutcome.sslError (some [5])
                  else FetchOutcome.ok (some "video/mp4") [5, 6, 7])
        "http://h/a" "out/0_t" "video" fsEmpty).2.1 "out/0_t.mp4"
      = some (FileData.bytes [5, 6, 7])
    ∧ (download_file (fun _ => none) (fun _ => FetchOutcome.httpError)
        "http://h/a" "out/0_t" "image" fsEmpty).2.1 "out/0_t.jpg" = none := by
  constructor
  · obtain ⟨j, body, hj1, hj3, hat, hpre, hfin, -⟩ :=
      claim_C2_atomic_final_path.1 (fun _ => none)
        (fun n => if n = 1 then FetchOutcome.sslError (some [5])
                  else FetchOutcome.ok (some "video/mp4") [5, 6, 7])
        "http://h/a" "out/0_t" "video" fsEmpty "out/0_t.mp4" (some "video/mp4")
        ((download_file (fun _ => none)
          (fun n => if n = 1 then FetchOutcome.sslError (some [5])
                    else FetchOutcome.ok (some "video/mp4") [5, 6, 7])
          "http://h/a" "out/0_t" "video" fsEmpty).2.1)
        ((download_file (fun _ => none)
          (fun n => if n = 1 then FetchOutcome.sslError (some [5])
                    else FetchOutcome.ok (some "video/mp4") [5, 6, 7])
          "http://h/a" "out/0_t" "video" fsEmpty).2.2) rfl
    have hjv : j = 2 := by
      interval_cases j
      · simp at hat
      · rfl
      · obtain ⟨pb, hpb⟩ := hpre 2 (by omega) (by omega)
        simp at hpb
    rw [hjv] at hat
    simp only [if_neg (by omega : ¬(2 : Nat) = 1)] at hat
    obtain ⟨-, hbody⟩ := FetchOutcome.ok.inj hat
    rw [← hbody] at hfin
    exact hfin
  · exact claim_C2_atomic_final_path.2 (fun _ => none) (fun _ => FetchOutcome.httpError)
      "http://h/a" "out/0_t" "image" fsEmpty DLErr.http
      ((download_file (fun _ => none) (fun _ => FetchOutcome.httpError)
        "http://h/a" "out/0_t" "image" fsEmpty).2.1)
      ((download_file (fun _ => none) (fun _ => FetchOutcome.httpError)
        "http://h/a" "out/0_t" "image" fsEmpty).2.2) rfl "out/0_t.jpg" (by decide)

/-! ### Reduction lemmas for the orchestrator loop -/

/-- The goal stem the loop computes for row `i` once the timestamp has been
parsed. -/
def rowStem (out_dir : String) (i : Nat) (dt : DateTimeParts) : String :=
  out_dir ++ "/" ++ safe_filename (removeColons (toString i ++ "_" ++ isoString dt))

/-- A gated row (enough cells, not before the starting index) whose
timestamp parses and whose URL extracts, with an HTTP status error from the
fetch: one ledger line is appended and the outcome is `fetchLogged`. -/
theorem processRow_http (env : Env) (ctx : ItemCtx) (si : Nat) (od : String)
    (i : Nat) (row : Row) (fs : FS)
    (h4 : ¬ row.tds.length < 4) (hsi : ¬ i < si)
    (dt : DateTimeParts) (hdt : parse_dt (row.tds.getD 0 "") = some dt)
    (url : String) (hurl : extract_download_url env.unescape row = some url)
    (fs1 : FS) (tr : List Ev)
    (hdl : download_file env.mime ctx.attempts url (rowStem od i dt)
      (pyLower (pyStrip (row.tds.getD 1 ""))) fs = (Except.error DLErr.http, fs1, tr)) :
    processRow env ctx si od i row fs
      = (add_line_to_file fs1 (ledgerPath od)
          (toString i ++ "_" ++ row.tds.getD 1 "" ++ " " ++ row.tds.getD 0 ""),
         StepOutcome.fetchLogged) := by
  unfold processRow
  rw [if_neg h4, if_neg hsi]
  dsimp only
  rw [hdt]
  dsimp only
  rw [hurl]
  dsimp only
  rw [show (od ++ "/" ++ safe_filename (removeColons (toString i ++ "_" ++ isoString dt)))
      = rowStem od i dt from rfl, hdl]

/-- Same gates, with exhausted TLS retries from the fetch: the error is
uncaught and the iteration crashes. -/
theorem processRow_ssl (env : Env) (ctx : ItemCtx) (si : Nat) (od : String)
    (i : Nat) (row : Row) (fs : FS)
    (h4 : ¬ row.tds.length < 4) (hsi : ¬ i < si)
    (dt : DateTimeParts) (hdt : parse_dt (row.tds.getD 0 "") = some dt)
    (url : String) (hurl : extract_download_url env.unescape row = some url)
    (fs1 : FS) (tr : List Ev)
    (hdl : download_file env.mime ctx.attempts url (rowStem od i dt)
      (pyLower (pyStrip (row.tds.getD 1 ""))) fs = (Except.error DLErr.ssl, fs1, tr)) :
    processRow env ctx si od i row fs = (fs1, StepOutcome.crashed CrashKind.sslExhausted) := by
  unfold processRow
  rw [if_neg h4, if_neg hsi]
  dsimp only
  rw [hdt]
  dsimp only
  rw [hurl]
  dsimp only
  rw [show (od ++ "/" ++ safe_filename (removeColons (toString i ++ "_" ++ isoString dt)))
      = rowStem od i dt from rfl, hdl]

/-- Same gates, with a successful fetch: the iteration hands the artifact
to the tagging phase and reports its terminal state. -/
theorem processRow_ok (env : Env) (ctx : ItemCtx) (si : Nat) (od : String)
    (i : Nat) (row : Row) (fs : FS)
    (h4 : ¬ row.tds.length < 4) (hsi : ¬ i < si)
    (dt : DateTimeParts) (hdt : parse_dt (row.tds.getD 0 "") = some dt)
    (url : String) (hurl : extract_download_url env.unescape row = some url)
    (file_path : String) (ct : Option String) (fs1 : FS) (tr : List Ev)
    (hdl : download_file env.mime ctx.attempts url (rowStem od i dt)
      (pyLower (pyStrip (row.tds.getD 1 ""))) fs = (Except.ok (file_path, ct), fs1, tr)) :
    processRow env ctx si od i row fs
      = ((tagPhase ctx (row.tds.getD 1 "") (pyLower (pyStrip (row.tds.getD 1 "")))
            (isoString dt) (row.tds.getD 2 "")
            ((parse_lat_lon (row.tds.getD 2 "")).map Prod.fst)
            ((parse_lat_lon (row.tds.getD 2 "")).map Prod.snd)
            ct file_path (pyLower (nameSuffix file_path)) fs1).1,
         StepOutcome.done
           (tagPhase ctx (row.tds.getD 1 "") (pyLower (pyStrip (row.tds.getD 1 "")))
            (isoString dt) (row.tds.getD 2 "")
            ((parse_lat_lon (row.tds.getD 2 "")).map Prod.fst)
            ((parse_lat_lon (row.tds.getD 2 "")).map Prod.snd)
            ct file_path (pyLower (nameSuffix file_path)) fs1).2) := by
  unfold processRow
  rw [if_neg h4, if_neg hsi]
  dsimp only
  rw [hdt]
  dsimp only
  rw [hurl]
  dsimp only
  rw [show (od ++ "/" ++ safe_filename (removeColons (toString i ++ "_" ++ isoString dt)))
      = rowStem od i dt from rfl, hdl]

/-- A non-crashing iteration moves the loop on to the rest of the rows. -/
theorem runRows_cons_continue (env : Env) (ctxOf : Nat → ItemCtx) (si : Nat)
    (od : String) (i : Nat) (row : Row) (rest : List (Nat × Row)) (fs fs1 : FS)
    (o : StepOutcome) (h : processRow env (ctxOf i) si od i row fs = (fs1, o))
    (hnc : ∀ k, o ≠ StepOutcome.crashed k) :
    runRows env ctxOf si od ((i, row) :: rest) fs = runRows env ctxOf si od rest fs1 := by
  rw [runRows, h]
  cases o with
  | skipped => rfl
  | fetchLogged => rfl
  | done t => rfl
  | crashed k => exact absurd rfl (hnc k)

/-- A crashing iteration stops the loop. -/
theorem runRows_cons_crash (env : Env) (ctxOf : Nat → ItemCtx) (si : Nat)
    (od : String) (i : Nat) (row : Row) (rest : List (Nat × Row)) (fs fs1 : FS)
    (k : CrashKind) (h : processRow env (ctxOf i) si od i row fs = (fs1, StepOutcome.crashed k)) :
    runRows env ctxOf si od ((i, row) :: rest) fs = (fs1, some k) := by
  rw [runRows, h]

/-- The JSON document the `except Exception` handler of the tagging phase
writes for one row: the six standard keys plus the error message under
`tag_error`. -/
def errSidecar (row : Row) (dt : DateTimeParts) (ct : Option String) (e : String) : SidecarJson :=
  { kind := row.tds.getD 1 ""
    date := isoString dt
    location := row.tds.getD 2 ""
    lat := (parse_lat_lon (row.tds.getD 2 "")).map Prod.fst
    lon := (parse_lat_lon (row.tds.getD 2 "")).map Prod.snd
    content_type := ct
    tag_error := some e }

/-- Under a reachable tagging branch whose tagger raises, the tagging phase
writes exactly the error sidecar and reports `sidecarError`. -/
theorem tagPhase_error (ctx : ItemCtx) (row : Row) (dt : DateTimeParts)
    (ct : Option String) (file_path : String) (fs1 : FS) (e : String)
    (hz : is_zip fs1 file_path ct = false)
    (hbr : branchErr ctx (pyLower (pyStrip (row.tds.getD 1 "")))
      (pyLower (nameSuffix file_path)) e) :
    tagPhase ctx (row.tds.getD 1 "") (pyLower (pyStrip (row.tds.getD 1 "")))
        (isoString dt) (row.tds.getD 2 "")
        ((parse_lat_lon (row.tds.getD 2 "")).map Prod.fst)
        ((parse_lat_lon (row.tds.getD 2 "")).map Prod.snd)
        ct file_path (pyLower (nameSuffix file_path)) fs1
      = (writeSidecar fs1 file_path (errSidecar row dt ct e), Terminal.sidecarError) := by
  unfold tagPhase
  dsimp only
  rw [if_neg (by rw [hz]; simp)]
  rcases hbr with ⟨hkn, hff, hvr⟩ | ⟨hkn, hsfx, her⟩ | ⟨hkn, hsfx1, hsfx2, hpr⟩
  · rw [if_pos (by rw [hkn, hff]; simp)]
    rw [hvr]
    rfl
  · rw [if_neg (by rw [hkn]; simp), if_pos (by rw [hkn]), if_pos hsfx]
    rw [her]
    rfl
  · rw [if_neg (by rw [hkn]; simp), if_pos (by rw [hkn]),
      if_neg (by rw [hsfx1]; simp), if_pos hsfx2]
    rw [hpr]
    rfl

/-- Claim C1: For every catalog item whose download succeeded, if the
subsequent tagging branch (video remux, JPEG/TIFF EXIF, or PNG text —
the branches that can raise) raises any exception, the orchestrator catches
it, writes a sidecar JSON beside the artifact containing the keys `kind`,
`date`, `location`, `lat`, `lon`, `content_type` and a `tag_error` key
holding the error message, leaves the downloaded artifact file present at
its path, and continues the loop with the next item instead of aborting the
run. -/
theorem claim_C1_tagging_failure_isolation
    (env : Env) (ctx : ItemCtx) (si : Nat) (od : String) (i : Nat) (row : Row)
    (fs : FS) (rest : List (Nat × Row)) (ctxOf : Nat → ItemCtx) (e : String)
    (h4 : ¬ row.tds.length < 4) (hsi : ¬ i < si)
    (dt : DateTimeParts) (hdt : parse_dt (row.tds.getD 0 "") = some dt)
    (url : String) (hurl : extract_download_url env.unescape row = some url)
    (file_path : String) (ct : Option String) (fs1 : FS) (tr : List Ev)
    (hdl : download_file env.mime ctx.attempts url (rowStem od i dt)
      (pyLower (pyStrip (row.tds.getD 1 ""))) fs = (Except.ok (file_path, ct), fs1, tr))
    (hz : is_zip fs1 file_path ct = false)
    (hbr : branchErr ctx (pyLower (pyStrip (row.tds.getD 1 "")))
      (pyLower (nameSuffix file_path)) e)
    (hctx : ctxOf i = ctx) :
    processRow env ctx si od i row fs
      = (writeSidecar fs1 file_path (errSidecar row dt ct e),
         StepOutcome.done Terminal.sidecarError)
    ∧ writeSidecar fs1 file_path (errSidecar row dt ct e) (sidecarPath file_path)
      = some (FileData.sidecar (errSidecar row dt ct e))
    ∧ writeSidecar fs1 file_path (errSidecar row dt ct e) file_path = fs1 file_path
    ∧ runRows env ctxOf si od ((i, row) :: rest) fs
      = runRows env ctxOf si od rest (writeSidecar fs1 file_path (errSidecar row dt ct e)) := by
  have hstep := processRow_ok env ctx si od i row fs h4 hsi dt hdt url hurl
    file_path ct fs1 tr hdl
  have htag := tagPhase_error ctx row dt ct file_path fs1 e hz hbr
  have hmain : processRow env ctx si od i row fs
      = (writeSidecar fs1 file_path (errSidecar row dt ct e),
         StepOutcome.done Terminal.sidecarError) := by
    rw [hstep, htag]
  refine ⟨hmain, writeSidecar_sidecar fs1 file_path (errSidecar row dt ct e),
    writeSidecar_artifact fs1 file_path (errSidecar row dt ct e), ?_⟩
  exact runRows_cons_continue env ctxOf si od i row rest fs _ _
    (by rw [hctx]; exact hmain) (by intro k h; cases h)

/-- Exhausted TLS retries make `download_file` re-raise the TLS error with
the full three-attempt trace. -/
theorem download_ssl_exhaust (m : String → Option String)
    (attempts : Nat → FetchOutcome) (url stem kind : String) (fs : FS)
    (p1 p2 p3 : Option (List Nat))
    (h1 : attempts 1 = FetchOutcome.sslError p1)
    (h2 : attempts 2 = FetchOutcome.sslError p2)
    (h3 : attempts 3 = FetchOutcome.sslError p3) :
    ∃ fs1, download_file m attempts url stem kind fs
      = (Except.error DLErr.ssl, fs1,
         [Ev.attempt 1, Ev.sleep 60, Ev.attempt 2, Ev.sleep 60, Ev.attempt 3]) := by
  unfold download_file
  dsimp only
  rw [show (3 : Nat) = 2 + 1 from rfl, runAttempts_unfold, h1]
  simp only [if_neg (by omega : ¬(2 : Nat) = 0)]
  rw [show (2 : Nat) = 1 + 1 from rfl, runAttempts_unfold, h2]
  simp only [if_neg (by omega : ¬(1 : Nat) = 0)]
  rw [show (1 : Nat) = 0 + 1 from rfl, runAttempts_unfold, h3]
  dsimp only
  rw [if_pos (show (0 : Nat) = 0 from rfl)]
  dsimp only
  exact ⟨_, rfl⟩

/-- Claim C4: When a fetch fails with an HTTP status error, exactly one line
of the form `{index}_{kind} {rawDateString}` is appended to the `not_saved`
ledger file (existing ledger contents preserved, file created if absent)
and the run continues with the next item; when a fetch exhausts its TLS
retries, the error propagates and the run halts. -/
theorem claim_C4_ledger_on_http_halt_on_tls :
    (∀ (env : Env) (ctx : ItemCtx) (si : Nat) (od : String) (i : Nat) (row : Row)
        (fs : FS) (rest : List (Nat × Row)) (ctxOf : Nat → ItemCtx)
        (dt : DateTimeParts) (url : String) (fs1 : FS) (tr : List Ev),
      ¬ row.tds.length < 4 → ¬ i < si →
      parse_dt (row.tds.getD 0 "") = some dt →
      extract_download_url env.unescape row = some url →
      download_file env.mime ctx.attempts url (rowStem od i dt)
        (pyLower (pyStrip (row.tds.getD 1 ""))) fs = (Except.error DLErr.http, fs1, tr) →
      ctxOf i = ctx →
      processRow env ctx si od i row fs
        = (add_line_to_file fs1 (ledgerPath od)
            (toString i ++ "_" ++ row.tds.getD 1 "" ++ " " ++ row.tds.getD 0 ""),
           StepOutcome.fetchLogged)
      ∧ (∀ ls, fs1 (ledgerPath od) = some (FileData.textLines ls) →
          add_line_to_file fs1 (ledgerPath od)
            (toString i ++ "_" ++ row.tds.getD 1 "" ++ " " ++ row.tds.getD 0 "")
            (ledgerPath od)
          = some (FileData.textLines
              (ls ++ [toString i ++ "_" ++ row.tds.getD 1 "" ++ " " ++ row.tds.getD 0 ""])))
      ∧ (fs1 (ledgerPath od) = none →
          add_line_to_file fs1 (ledgerPath od)
            (toString i ++ "_" ++ row.tds.getD 1 "" ++ " " ++ row.tds.getD 0 "")
            (ledgerPath od)
          = some (FileData.textLines
              [toString i ++ "_" ++ row.tds.getD 1 "" ++ " " ++ row.tds.getD 0 ""]))
      ∧ (∀ q, q ≠ ledgerPath od →
          add_line_to_file fs1 (ledgerPath od)
            (toString i ++ "_" ++ row.tds.getD 1 "" ++ " " ++ row.tds.getD 0 "") q
          = fs1 q)
      ∧ runRows env ctxOf si od ((i, row) :: rest) fs
        = runRows env ctxOf si od rest
            (add_line_to_file fs1 (ledgerPath od)
              (toString i ++ "_" ++ row.tds.getD 1 "" ++ " " ++ row.tds.getD 0 "")))
    ∧ (∀ (env : Env) (ctx : ItemCtx) (si : Nat) (od : String) (i : Nat) (row : Row)
        (fs : FS) (rest : List (Nat × Row)) (ctxOf : Nat → ItemCtx)
        (dt : DateTimeParts) (url : String),
      ¬ row.tds.length < 4 → ¬ i < si →
      parse_dt (row.tds.getD 0 "") = some dt →
      extract_download_url env.unescape row = some url →
      (∀ k, 1 ≤ k → k ≤ 3 → ∃ pb, ctx.attempts k = FetchOutcome.sslError pb) →
      ctxOf i = ctx →
      (processRow env ctx si od i row fs).2 = StepOutcome.crashed CrashKind.sslExhausted
      ∧ runRows env ctxOf si od ((i, row) :: rest) fs
        = ((processRow env ctx si od i row fs).1, some CrashKind.sslExhausted)) := by
  constructor
  · intro env ctx si od i row fs rest ctxOf dt url fs1 tr h4 hsi hdt hurl hdl hctx
    have hmain := processRow_http env ctx si od i row fs h4 hsi dt hdt url hurl fs1 tr hdl
    refine ⟨hmain, ?_, ?_, ?_, ?_⟩
    · intro ls hls
      unfold add_line_to_file
      rw [hls]
      exact fsWrite_self _ _ _
    · intro hnone
      unfold add_line_to_file
      rw [hnone]
      exact fsWrite_self _ _ _
    · intro q hq
      unfold add_line_to_file
      cases fs1 (ledgerPath od) with
      | none => exact fsWrite_other _ _ _ _ hq
      | some d => cases d <;> exact fsWrite_other _ _ _ _ hq
    · exact runRows_cons_continue env ctxOf si od i row rest fs _ _
        (by rw [hctx]; exact hmain) (by intro k h; cases h)
  · intro env ctx si od i row fs rest ctxOf dt url h4 hsi hdt hurl hssl hctx
    obtain ⟨p1, h1⟩ := hssl 1 (by omega) (by omega)
    obtain ⟨p2, h2⟩ := hssl 2 (by omega) (by omega)
    obtain ⟨p3, h3⟩ := hssl 3 (by omega) (by omega)
    obtain ⟨fs1, hdl⟩ := download_ssl_exhaust env.mime ctx.attempts url (rowStem od i dt)
      (pyLower (pyStrip (row.tds.getD 1 ""))) fs p1 p2 p3 h1 h2 h3
    have hmain := processRow_ssl env ctx si od i row fs h4 hsi dt hdt url hurl fs1 _ hdl
    constructor
    · rw [hmain]
    · rw [hmain]
      exact runRows_cons_crash env ctxOf si od i row rest fs fs1 CrashKind.sslExhausted
        (by rw [hctx]; exact hmain)

/-! ### Concrete rows and contexts for the orchestrator witnesses -/

/-- The glue environment with an identity `html.unescape` and an empty
`mimetypes` table (the two overrides in `guess_ext` do not need it). -/
def envId : Env := { mime := fun _ => none, unescape := id }

/-- An `onclick` attribute carrying one download URL. -/
def mkOnclick (u : String) : String :=
  "downloadMemories(" ++ String.mk [quoteChar] ++ u ++ String.mk [quoteChar] ++ ")"

/-- A well-formed image row with coordinates. -/
def rowC1 : Row :=
  { tds := ["2025-11-12 21:05:03 UTC", "Image",
            "Latitude, Longitude: 48.8566, 2.3522", "link"]
    onclick := some (mkOnclick "https://h/dl?mid=1") }

/-- A fetch that succeeds with a JPEG, and an EXIF tagger that raises. -/
def ctxC1 : ItemCtx :=
  { attempts := fun _ => FetchOutcome.ok (some "image/jpeg") [255, 216]
    ffmpegAvailable := false
    videoResult := Except.ok []
    exifResult := Except.error "piexif boom"
    pngResult := Except.ok [] }

/-- The parsed timestamp of the demo rows. -/
def dtC1 : DateTimeParts := ⟨2025, 11, 12, 21, 5, 3⟩

/-- The download of `rowC1` under `ctxC1`. -/
def dlC1 :=
  download_file envId.mime ctxC1.attempts "https://h/dl?mid=1" (rowStem "out" 0 dtC1)
    (pyLower (pyStrip "Image")) fsEmpty

/-- The artifact path the fetch of `rowC1` resolves to. -/
def fpC1 : String := "out/0_2025-11-12T210503Z.jpg"

/-- Witness for C1: a row whose EXIF tagging raises ends with the error
sidecar beside the untouched artifact, the loop moving on; the sidecar
record is spelled out. -/
theorem claim_C1_tagging_failure_isolation_witness :
    processRow envId ctxC1 0 "out" 0 rowC1 fsEmpty
      = (writeSidecar dlC1.2.1 fpC1 (errSidecar rowC1 dtC1 (some "image/jpeg") "piexif boom"),
         StepOutcome.done Terminal.sidecarError)
    ∧ writeSidecar dlC1.2.1 fpC1 (errSidecar rowC1 dtC1 (some "image/jpeg") "piexif boom")
        (sidecarPath fpC1)
      = some (FileData.sidecar (errSidecar rowC1 dtC1 (some "image/jpeg") "piexif boom"))
    ∧ writeSidecar dlC1.2.1 fpC1 (errSidecar rowC1 dtC1 (some "image/jpeg") "piexif boom") fpC1
      = dlC1.2.1 fpC1
    ∧ runRows envId (fun _ => ctxC1) 0 "out" [(0, rowC1)] fsEmpty
      = runRows envId (fun _ => ctxC1) 0 "out" []
          (writeSidecar dlC1.2.1 fpC1 (errSidecar rowC1 dtC1 (some "image/jpeg") "piexif boom"))
    ∧ errSidecar rowC1 dtC1 (some "image/jpeg") "piexif boom"
      = { kind := "Image", date := "2025-11-12T21:05:03Z",
          location := "Latitude, Longitude: 48.8566, 2.3522",
          lat := some (48.8566 : ℚ), lon := some (2.3522 : ℚ),
          content_type := some "image/jpeg", tag_error := some "piexif boom" } := by
  have h := claim_C1_tagging_failure_isolation envId ctxC1 0 "out" 0 rowC1 fsEmpty []
    (fun _ => ctxC1) "piexif boom" (by decide) (by omega) dtC1 (by decide)
    "https://h/dl?mid=1" (by decide) fpC1 (some "image/jpeg") dlC1.2.1 dlC1.2.2 rfl
    (by decide) (Or.inr (Or.inl ⟨by decide, by decide, rfl⟩)) rfl
  have hsym : errSidecar rowC1 dtC1 (some "image/jpeg") "piexif boom"
      = { kind := "Image", date := "2025-11-12T21:05:03Z",
          location := "Latitude, Longitude: 48.8566, 2.3522",
          lat := some (1 * (((48 : Nat) : ℚ) + ((8566 : Nat) : ℚ) / (10 : ℚ) ^ (4 : Nat))),
          lon := some (1 * (((2 : Nat) : ℚ) + ((3522 : Nat) : ℚ) / (10 : ℚ) ^ (4 : Nat))),
          content_type := some "image/jpeg", tag_error := some "piexif boom" } := rfl
  refine ⟨h.1, h.2.1, h.2.2.1, h.2.2.2, ?_⟩
  rw [hsym]
  simp only [SidecarJson.mk.injEq, Option.some.injEq]
  norm_num

/-- A fetch that always returns an HTTP status error. -/
def ctxHttp : ItemCtx :=
  { attempts := fun _ => FetchOutcome.httpError
    ffmpegAvailable := false
    videoResult := Except.ok []
    exifResult := Except.ok []
    pngResult := Except.ok [] }

/-- A fetch whose every attempt fails with a TLS error. -/
def ctxSsl : ItemCtx :=
  { attempts := fun _ => FetchOutcome.sslError none
    ffmpegAvailable := false
    videoResult := Except.ok []
    exifResult := Except.ok []
    pngResult := Except.ok [] }

/-- A well-formed video row. -/
def rowC4 : Row :=
  { tds := ["2025-11-12 21:05:03 UTC", "Video", "no coordinates", "link"]
    onclick := some (mkOnclick "https://h/dl?mid=2") }

/-- Witness for C4: the 404 row appends the one ledger line (creating the
file) and the loop continues; the all-TLS-failures row crashes the run. -/
theorem claim_C4_ledger_on_http_halt_on_tls_witness :
    processRow envId ctxHttp 0 "out" 3 rowC4 fsEmpty
      = (add_line_to_file fsEmpty (ledgerPath "out") "3_Video 2025-11-12 21:05:03 UTC",
         StepOutcome.fetchLogged)
    ∧ add_line_to_file fsEmpty (ledgerPath "out") "3_Video 2025-11-12 21:05:03 UTC"
        (ledgerPath "out")
      = some (FileData.textLines ["3_Video 2025-11-12 21:05:03 UTC"])
    ∧ runRows envId (fun _ => ctxHttp) 0 "out" [(3, rowC4)] fsEmpty
      = runRows envId (fun _ => ctxHttp) 0 "out" []
          (add_line_to_file fsEmpty (ledgerPath "out") "3_Video 2025-11-12 21:05:03 UTC")
    ∧ (processRow envId ctxSsl 0 "out" 4 rowC4 fsEmpty).2
      = StepOutcome.crashed CrashKind.sslExhausted
    ∧ runRows envId (fun _ => ctxSsl) 0 "out" [(4, rowC4)] fsEmpty
      = ((processRow envId ctxSsl 0 "out" 4 rowC4 fsEmpty).1,
         some CrashKind.sslExhausted) := by
  have h := claim_C4_ledger_on_http_halt_on_tls.1 envId ctxHttp 0 "out" 3 rowC4
    fsEmpty [] (fun _ => ctxHttp) dtC1 "https://h/dl?mid=2" fsEmpty [Ev.attempt 1]
    (by decide) (by omega) (by decide) (by decide) rfl rfl
  have h2 := claim_C4_ledger_on_http_halt_on_tls.2 envId ctxSsl 0 "out" 4 rowC4
    fsEmpty [] (fun _ => ctxSsl) dtC1 "https://h/dl?mid=2"
    (by decide) (by omega) (by decide) (by decide)
    (fun k hk1 hk3 => ⟨none, rfl⟩) rfl
  exact ⟨h.1, h.2.2.1 rfl, h.2.2.2.2, h2.1, h2.2⟩

/-- A row with four cells whose timestamp text is not in the expected
format. -/
def rowBadDate : Row :=
  { tds := ["not a date", "Image", "loc", "link"]
    onclick := some (mkOnclick "http://h/a.jpg") }

/-- A row with fewer than four cells. -/
def rowShort : Row := { tds := ["x", "y"], onclick := none }

/-- A four-cell row with a good timestamp but no extractable URL. -/
def rowNoUrl : Row :=
  { tds := ["2025-11-12 21:05:03 UTC", "Image", "loc", "link"]
    onclick := none }

/-- Counterexample for C3: a row whose timestamp text does not match
`YYYY-MM-DD HH:MM:SS UTC` is not skipped — the `ValueError` from `strptime`
is caught nowhere in the loop, so the iteration crashes and the run stops
without reaching the next row. -/
theorem claim_C3_counterexample :
    (processRow envId ctxDemo 0 "out" 0 rowBadDate fsEmpty).2
      = StepOutcome.crashed CrashKind.valueError
    ∧ runRows envId (fun _ => ctxDemo) 0 "out" [(0, rowBadDate), (1, rowShort)] fsEmpty
      = (fsEmpty, some CrashKind.valueError) := by
  exact ⟨rfl, rfl⟩

/-- Claim C3, amended: A catalog row with fewer than four cells is skipped
and the pipeline continues with the next row.  But the other malformed
cases are fatal: a row whose timestamp text does not parse raises an
uncaught `ValueError` that halts the run, and a row from which no download
URL can be extracted passes `None` to the fetch, whose `MissingSchema`
transport error is equally uncaught; any crash stops the whole loop. -/
theorem claim_C3_malformed_rows :
    (∀ (env : Env) (ctx : ItemCtx) (si : Nat) (od : String) (i : Nat) (row : Row) (fs : FS),
      row.tds.length < 4 →
      processRow env ctx si od i row fs = (fs, StepOutcome.skipped))
    ∧ (∀ (env : Env) (ctxOf : Nat → ItemCtx) (si : Nat) (od : String) (i : Nat)
        (row : Row) (rest : List (Nat × Row)) (fs : FS),
      row.tds.length < 4 →
      runRows env ctxOf si od ((i, row) :: rest) fs = runRows env ctxOf si od rest fs)
    ∧ (∀ (env : Env) (ctx : ItemCtx) (si : Nat) (od : String) (i : Nat) (row : Row) (fs : FS),
      ¬ row.tds.length < 4 → ¬ i < si →
      parse_dt (row.tds.getD 0 "") = none →
      processRow env ctx si od i row fs = (fs, StepOutcome.crashed CrashKind.valueError))
    ∧ (∀ (env : Env) (ctx : ItemCtx) (si : Nat) (od : String) (i : Nat) (row : Row)
        (fs : FS) (dt : DateTimeParts),
      ¬ row.tds.length < 4 → ¬ i < si →
      parse_dt (row.tds.getD 0 "") = some dt →
      extract_download_url env.unescape row = none →
      processRow env ctx si od i row fs = (fs, StepOutcome.crashed CrashKind.transport))
    ∧ (∀ (env : Env) (ctxOf : Nat → ItemCtx) (si : Nat) (od : String) (i : Nat)
        (row : Row) (rest : List (Nat × Row)) (fs fs1 : FS) (k : CrashKind),
      processRow env (ctxOf i) si od i row fs = (fs1, StepOutcome.crashed k) →
      runRows env ctxOf si od ((i, row) :: rest) fs = (fs1, some k)) := by
  refine ⟨?_, ?_, ?_, ?_, ?_⟩
  · intro env ctx si od i row fs h
    unfold processRow
    rw [if_pos h]
  · intro env ctxOf si od i row rest fs h
    have h1 : processRow env (ctxOf i) si od i row fs = (fs, StepOutcome.skipped) := by
      unfold processRow
      rw [if_pos h]
    rw [runRows, h1]
  · intro env ctx si od i row fs h4 hsi hdt
    unfold processRow
    rw [if_neg h4, if_neg hsi]
    dsimp only
    rw [hdt]
  · intro env ctx si od i row fs dt h4 hsi hdt hurl
    unfold processRow
    rw [if_neg h4, if_neg hsi]
    dsimp only
    rw [hdt]
    dsimp only
    rw [hurl]
  · intro env ctxOf si od i row rest fs fs1 k h
    exact runRows_cons_crash env ctxOf si od i row rest fs fs1 k h

/-- Witness for the amended C3: a two-cell row is skipped and the loop
continues; a bad-timestamp row crashes with the `ValueError`; a no-URL row
crashes with the transport error, halting the loop. -/
theorem claim_C3_malformed_rows_witness :
    processRow envId ctxDemo 0 "out" 0 rowShort fsEmpty = (fsEmpty, StepOutcome.skipped)
    ∧ runRows envId (fun _ => ctxDemo) 0 "out" [(0, rowShort)] fsEmpty
      = runRows envId (fun _ => ctxDemo) 0 "out" [] fsEmpty
    ∧ processRow envId ctxDemo 0 "out" 1 rowBadDate fsEmpty
      = (fsEmpty, StepOutcome.crashed CrashKind.valueError)
    ∧ processRow envId ctxDemo 0 "out" 2 rowNoUrl fsEmpty
      = (fsEmpty, StepOutcome.crashed CrashKind.transport)
    ∧ runRows envId (fun _ => ctxDemo) 0 "out" [(2, rowNoUrl)] fsEmpty
      = (fsEmpty, some CrashKind.transport) := by
  have hp4 := claim_C3_malformed_rows.2.2.2.1 envId ctxDemo 0 "out" 2 rowNoUrl fsEmpty
    dtC1 (by decide) (by omega) (by decide) rfl
  refine ⟨?_, ?_, ?_, hp4, ?_⟩
  · exact claim_C3_malformed_rows.1 envId ctxDemo 0 "out" 0 rowShort fsEmpty (by decide)
  · exact claim_C3_malformed_rows.2.1 envId (fun _ => ctxDemo) 0 "out" 0 rowShort []
      fsEmpty (by decide)
  · exact claim_C3_malformed_rows.2.2.1 envId ctxDemo 0 "out" 1 rowBadDate fsEmpty
      (by decide) (by omega) (by decide)
  · exact claim_C3_malformed_rows.2.2.2.2 envId (fun _ => ctxDemo) 0 "out" 2 rowNoUrl []
      fsEmpty fsEmpty CrashKind.transport hp4

end Snap
